import Mathlib

/-!
# Emergency alert client (`static/script.js`)

A shallow embedding of the orchestration logic of `static/script.js`: the
contact form, the one-shot alert flow, the live tracking loop and the
tracking-history derivation.

Conventions of the embedding.

* The script's top-level `let` variables and the platform's timer table form
  the record `Sys`. Every call the script makes to a collaborator (DOM text,
  map widget, network, timers, geolocation) is appended to `Sys.trace`.
* An `async` function is a `Flow`: a state transformer that may end in a thrown
  error (the message of the JavaScript error object). What the environment
  answers at an `await` (a position, a response, a rejection) is an argument of
  the function, so a theorem quantifies over all answers.
* A flow is followed from its call to its settlement without other handlers
  interleaved.
* Coordinates are never computed with, only passed on and tested for `NaN`, so
  a number that is not `NaN` is carried as an integer payload.
-/

namespace Sea

/-! ## JavaScript helpers -/

/-- The code points that `String.prototype.trim` strips: ECMAScript WhiteSpace
and LineTerminator. -/
def isJsWhitespace (c : Char) : Bool :=
  let n := c.toNat
  n == 9 || n == 10 || n == 11 || n == 12 || n == 13 || n == 32 || n == 160 ||
  n == 5760 || (8192 ≤ n && n ≤ 8202) || n == 8232 || n == 8233 || n == 8239 ||
  n == 8287 || n == 12288 || n == 65279

/-- `s.trim()` on the list of characters of `s`. -/
def trimChars (cs : List Char) : List Char :=
  ((cs.dropWhile isJsWhitespace).reverse.dropWhile isJsWhitespace).reverse

/-- `s.trim()`. -/
def trim (s : String) : String := ⟨trimChars s.data⟩

/-- `s.includes(t)`: `t` occurs in `s` as a contiguous run of characters. -/
def includes (s t : String) : Bool :=
  s.data.tails.any (fun u => t.data.isPrefixOf u)

/-- Truthiness of a string: only `""` is falsy. -/
def truthyStr (s : String) : Bool := !(s == "")

/-- `m || d` where `m` is a string-valued property that may be missing. -/
def orElse (m : Option String) (d : String) : String :=
  match m with
  | some s => if truthyStr s then s else d
  | none => d

/-- Truthiness of a variable holding `null` or a number: `null` and `0` are
falsy. -/
def truthyHandle (h : Option Nat) : Bool :=
  match h with
  | some n => !(n == 0)
  | none => false

/-! ## Data -/

/-- A JavaScript number as far as the script inspects it: `NaN`, or a number
that is not `NaN` (its value is only passed on). -/
inductive JsNum where
  | nan
  | num (v : Int)
  deriving DecidableEq, Repr

/-- The test `Number.isNaN(x)`. -/
def JsNum.isNaN : JsNum → Bool
  | .nan => true
  | .num _ => false

/-- A field of a JSON sample as delivered (number, string, `null`, missing),
before `parseFloat`. -/
inductive JsVal where
  | number (v : Int)
  | string (s : String)
  | null
  | undefined
  deriving DecidableEq, Repr

/-- An entry of `data.locations` or `data.alerts`. -/
structure Sample where
  latitude : JsVal
  longitude : JsVal
  timestamp : String
  deriving DecidableEq, Repr

/-- The body of a request, before `JSON.stringify`. -/
inductive ReqBody where
  | none
  | contact (name email phone : String)
  | alert (latitude longitude : JsNum) (contact_email contact_phone : String)
  | location (latitude longitude : JsNum)
  deriving DecidableEq, Repr

/-- Calls to collaborators, in the order the script makes them. -/
inductive Effect where
  | setStatus (message : String)
  | setDeliveryWarning (message : String)
  | setIndicator (mode : String)
  | setTrackingStatusView (active : Bool)
  | classAdd (cls : String)
  | classRemove (cls : String)
  | playSiren
  | getCurrentPosition (timeout : Nat) (maximumAge : Nat)
  | fetch (method url : String) (body : ReqBody)
  | clearInputs
  | renderContacts (n : Nat)
  | renderHistory (alerts : List Sample)
  | updateAlertMarkers (alerts : List Sample)
  | updateCoords (lat lng : JsNum)
  | updateMap (lat lng : JsNum)
  | updateLiveMarker (lat lng : JsNum)
  | updateTrackingPath (points : List (JsNum × JsNum))
  | updateLastAlert (timestamp : String) (lat lng : JsNum)
  | addAlertMarker (alert : Sample)
  | tick
  | setInterval (handle : Nat) (delay : Nat)
  | clearInterval (handle : Nat)
  | setTimeoutSetIndicator (mode : String) (delay : Nat)
  deriving DecidableEq, Repr

/-- The script's mutable variables, the values of the contact inputs, the
platform's table of repeating timers, and the trace of collaborator calls. -/
structure Sys where
  /-- `contactNameInput.value`, or `none` when the element is missing. -/
  contactNameInput : Option String
  contactEmailInput : Option String
  contactPhoneInput : Option String
  currentPosition : Option (JsNum × JsNum)
  liveTrackingInterval : Option Nat
  trackingActive : Bool
  /-- Handles of the repeating timers currently scheduled. -/
  timers : List Nat
  /-- The last timer handle the platform handed out (handles are positive and
  never reused). -/
  lastHandle : Nat
  trace : List Effect
  deriving DecidableEq, Repr

/-- The state after the script has loaded: no timer, tracking flag false. -/
def Sys.init : Sys :=
  { contactNameInput := some "", contactEmailInput := some "", contactPhoneInput := some "",
    currentPosition := none, liveTrackingInterval := none, trackingActive := false,
    timers := [], lastHandle := 0, trace := [] }

/-- What `fetch` resolves to. `text` is what `response.text()` settles with and
`json` what `response.json()` settles with: the parsed body, or the message of
the error it rejects with (a body that is not JSON, a read that fails). -/
structure Response (β : Type) where
  ok : Bool
  contentType : Option String
  text : Except String String
  json : Except String β

/-! ## Flows -/

/-- An `async` function body: runs on a state, ends with a value or a thrown
error message. -/
def Flow (α : Type) : Type := Sys → Except String α × Sys

namespace Flow

def ret {α : Type} (a : α) : Flow α := fun s => (.ok a, s)

def andThen {α β : Type} (m : Flow α) (f : α → Flow β) : Flow β := fun s =>
  match m s with
  | (.ok a, s1) => f a s1
  | (.error e, s1) => (.error e, s1)

instance : Monad Flow where
  pure := Flow.ret
  bind := Flow.andThen

/-- A call to a collaborator. -/
def emit (e : Effect) : Flow Unit := fun s => (.ok (), { s with trace := s.trace ++ [e] })

/-- The statement `throw new Error(msg)`. -/
def raise {α : Type} (msg : String) : Flow α := fun s => (.error msg, s)

/-- The expression `await p` where the environment settles `p` with `o`. -/
def await {α : Type} (o : Except String α) : Flow α := fun s => (o, s)

/-- The statement `try body catch (error) handler`. -/
def tryCatch {α : Type} (body : Flow α) (handler : String → Flow α) : Flow α := fun s =>
  match body s with
  | (.ok a, s1) => (.ok a, s1)
  | (.error e, s1) => handler e s1

/-- The statement `try body finally fin`. -/
def tryFinally {α : Type} (body : Flow α) (fin : Flow Unit) : Flow α := fun s =>
  match body s with
  | (r, s1) =>
    match fin s1 with
    | (.ok _, s2) => (r, s2)
    | (.error e, s2) => (.error e, s2)

/-- Read the state. -/
def read : Flow Sys := fun s => (.ok s, s)

/-- Update the state. -/
def update (f : Sys → Sys) : Flow Unit := fun s => (.ok (), f s)

end Flow

open Flow

/-- The collaborator calls a flow makes when run on `s`. -/
def effectsOf {α : Type} (f : Flow α) (s : Sys) : List Effect :=
  (f s).2.trace.drop s.trace.length

/-! ## View helpers -/

def setStatus (message : String) : Flow Unit := emit (.setStatus message)

def setDeliveryWarning (message : String) : Flow Unit := emit (.setDeliveryWarning message)

def setIndicator (mode : String) : Flow Unit := emit (.setIndicator mode)

/-! ## Contacts -/

/-- A body of the contacts endpoints: an optional `message`. -/
structure MessageBody where
  message : Option String
  deriving DecidableEq, Repr

/-- The expression `input ? input.value.trim() : ""` for an input element that
may be missing. -/
def trimmedValue (input : Option String) : String :=
  match input with
  | some v => trim v
  | none => ""

/-- `loadContacts`: `contacts` is what `/get_contacts` resolves to, parsed (the
number of rows is all the view sees here), or the rejection. -/
def loadContacts (contacts : Except String Nat) : Flow Unit := do
  emit (.fetch "GET" "/get_contacts" .none)
  let n ← await contacts
  emit (.renderContacts n)

/-- `addContact`. `resp` is what the POST settles with, `contacts` what the
reload settles with. -/
def addContact (resp : Except String (Response MessageBody)) (contacts : Except String Nat) :
    Flow Unit := do
  let s ← read
  let name := trimmedValue s.contactNameInput
  let email := trimmedValue s.contactEmailInput
  let phone := trimmedValue s.contactPhoneInput
  if !truthyStr name then
    setDeliveryWarning "Name is required to add a contact."
  else if !truthyStr email && !truthyStr phone then
    setDeliveryWarning "Add at least an email or phone."
  else do
    emit (.fetch "POST" "/add_contact" (.contact name email phone))
    let response ← await resp
    if !response.ok then
      let contentType := orElse response.contentType ""
      if includes contentType "application/json" then do
        let data ← await response.json
        setDeliveryWarning (orElse data.message "Unable to add contact.")
      else
        setDeliveryWarning "Unable to add contact."
    else do
      emit .clearInputs
      update (fun s => { s with
        contactNameInput := s.contactNameInput.map (fun _ => ""),
        contactEmailInput := s.contactEmailInput.map (fun _ => ""),
        contactPhoneInput := s.contactPhoneInput.map (fun _ => "") })
      setDeliveryWarning "Contact added successfully."
      loadContacts contacts

/-! ## Location -/

/-- What the platform answers to a one-shot location request: `none` when
`navigator.geolocation` is missing, otherwise the position it calls back with
or the message of the error it calls back with. -/
abbrev Geolocation := Option (Except String (JsNum × JsNum))

/-- The timeout `getLocation` passes to `getCurrentPosition`. -/
def locationTimeout : Nat := 10000

/-- `getLocation`. -/
def getLocation (geo : Geolocation) : Flow (JsNum × JsNum) :=
  match geo with
  | none => raise "Geolocation is not supported."
  | some outcome => do
    emit (.getCurrentPosition locationTimeout 0)
    await outcome

/-! ## Alert send -/

/-- The parsed body of `/send_alert`. `demo_mode` is the truthiness of the
field; `delivery_results` is `some` exactly when the field is an array. -/
structure AlertResult where
  alert : Option Sample
  demo_mode : Bool
  delivery_results : Option (List String)
  message : Option String
  deriving DecidableEq, Repr

/-- The test `contentType && contentType.includes("application/json")` on a
header that may be missing. -/
def isJsonType (contentType : Option String) : Bool :=
  match contentType with
  | some ct => truthyStr ct && includes ct "application/json"
  | none => false

/-- `sendAlert`. `resp` is what the POST settles with. -/
def sendAlert (lat lng : JsNum) (contactEmail contactPhone : String)
    (resp : Except String (Response AlertResult)) : Flow AlertResult := do
  emit (.fetch "POST" "/send_alert" (.alert lat lng contactEmail contactPhone))
  let response ← await resp
  let contentType := response.contentType
  let data ←
    if isJsonType contentType then
      await response.json
    else do
      let text ← await response.text
      raise ("Server error: " ++ text)
  if !response.ok then
    raise (orElse data.message "Alert failed")
  else
    pure data

/-! ## History -/

/-- The parsed body of `/get_alerts`. -/
structure AlertsBody where
  alerts : Option (List Sample)
  deriving DecidableEq, Repr

/-- `fetchHistory`. -/
def fetchHistory (resp : Except String (Response AlertsBody)) : Flow Unit := do
  emit (.fetch "GET" "/get_alerts" .none)
  let response ← await resp
  let data ← await response.json
  let alerts := data.alerts.getD []
  emit (.renderHistory alerts)
  emit (.updateAlertMarkers alerts)

/-- The parsed body of `/get_tracking_history`. -/
structure LocationsBody where
  locations : Option (List Sample)
  deriving DecidableEq, Repr

/-- The array `points` of `fetchTrackingHistory`: every location mapped to its
parsed pair, then the pairs with a `NaN` dropped. `parseFloat` is the built-in,
taken as a parameter. -/
def trackingPoints (parseFloat : JsVal → JsNum) (locations : List Sample) :
    List (JsNum × JsNum) :=
  (locations.map (fun loc => (parseFloat loc.latitude, parseFloat loc.longitude))).filter
    (fun pair => !pair.1.isNaN && !pair.2.isNaN)

/-- `fetchTrackingHistory`. -/
def fetchTrackingHistory (parseFloat : JsVal → JsNum)
    (resp : Except String (Response LocationsBody)) : Flow Unit := do
  emit (.fetch "GET" "/get_tracking_history" .none)
  let response ← await resp
  let data ← await response.json
  let locations := data.locations.getD []
  let points := trackingPoints parseFloat locations
  match points with
  | (lat, lng) :: _ => emit (.updateLiveMarker lat lng)
  | [] => pure ()
  emit (.updateTrackingPath points.reverse)

/-! ## Live tracking loop -/

/-- The period `startLiveTracking` passes to `setInterval`. -/
def tickPeriod : Nat := 5000

/-- `setTrackingStatus`. -/
def setTrackingStatus (active : Bool) : Flow Unit := do
  update (fun s => { s with trackingActive := active })
  emit (.setTrackingStatusView active)

/-- The platform call `setInterval(tick, delay)`: a fresh positive handle, the
timer entered in the table. -/
def setInterval (delay : Nat) : Flow Nat := do
  let s ← read
  let h := s.lastHandle + 1
  update (fun s => { s with lastHandle := h, timers := s.timers ++ [h] })
  emit (.setInterval h delay)
  pure h

/-- The platform call `clearInterval(handle)`. -/
def clearInterval (handle : Option Nat) : Flow Unit := do
  match handle with
  | some h =>
    update (fun s => { s with timers := s.timers.filter (fun t => !(t == h)) })
    emit (.clearInterval h)
  | none => pure ()

/-- The platform call `setTimeout(() => setIndicator(mode), delay)`. -/
def setTimeoutSetIndicator (mode : String) (delay : Nat) : Flow Unit := do
  update (fun s => { s with lastHandle := s.lastHandle + 1 })
  emit (.setTimeoutSetIndicator mode delay)

/-- `sendLiveLocation`. -/
def sendLiveLocation (lat lng : JsNum) (resp : Except String (Response MessageBody)) :
    Flow MessageBody := do
  emit (.fetch "POST" "/update_location" (.location lat lng))
  let response ← await resp
  if !response.ok then
    let errorData ← await response.json
    raise (orElse errorData.message "Live tracking failed.")
  else
    await response.json

/-- The body of `tick` inside its `try`. -/
def tickBody (parseFloat : JsVal → JsNum) (geo : Geolocation)
    (push : Except String (Response MessageBody))
    (pull : Except String (Response LocationsBody)) : Flow Unit := do
  let pos ← getLocation geo
  let (latitude, longitude) := pos
  update (fun s => { s with currentPosition := some (latitude, longitude) })
  emit (.updateCoords latitude longitude)
  emit (.updateLiveMarker latitude longitude)
  let _result ← sendLiveLocation latitude longitude push
  fetchTrackingHistory parseFloat pull

/-- The closure `tick` of `startLiveTracking`, from its call to the settlement
of its chain. -/
def tick (parseFloat : JsVal → JsNum) (geo : Geolocation)
    (push : Except String (Response MessageBody))
    (pull : Except String (Response LocationsBody)) : Flow Unit :=
  tryCatch (tickBody parseFloat geo push pull)
    (fun error => setStatus (orElse (some error) "Unable to update live tracking."))

/-- `startLiveTracking`. `geolocation` tells whether `navigator.geolocation` is
there. The call `tick()` is recorded as the effect `tick`; its chain is the
flow `tick`. -/
def startLiveTracking (geolocation : Bool) : Flow Unit := do
  if !geolocation then
    setStatus "Geolocation is not supported in this browser."
  else do
    let s ← read
    if truthyHandle s.liveTrackingInterval then
      pure ()
    else do
      setTrackingStatus true
      emit .tick
      let h ← setInterval tickPeriod
      update (fun s => { s with liveTrackingInterval := some h })

/-- `stopLiveTracking`. -/
def stopLiveTracking : Flow Unit := do
  let s ← read
  if !truthyHandle s.liveTrackingInterval then
    pure ()
  else do
    clearInterval s.liveTrackingInterval
    update (fun s => { s with liveTrackingInterval := none })
    setTrackingStatus false

/-! ## Alert flow -/

/-- The message of the `TypeError` thrown by `result.alert.timestamp` when the
response carries no `alert` (the wording is the engine's). -/
def missingAlertError : String := "Cannot read properties of undefined (reading timestamp)"

/-- The body of `handleAlert` inside its `try`. -/
def handleAlertBody (geo : Geolocation) (alertResp : Except String (Response AlertResult))
    (historyResp : Except String (Response AlertsBody)) : Flow Unit := do
  let pos ← getLocation geo
  let (latitude, longitude) := pos
  update (fun s => { s with currentPosition := some (latitude, longitude) })
  emit (.updateCoords latitude longitude)
  emit (.updateMap latitude longitude)
  setStatus "Sending alert..."
  let result ← sendAlert latitude longitude "" "" alertResp
  if result.demo_mode then
    setStatus "Demo mode: Alert simulated successfully."
  else
    setStatus (orElse result.message "Alert sent successfully.")
  match result.delivery_results with
  | some rs => setStatus ("Alert sent to " ++ toString rs.length ++ " emergency contacts")
  | none => pure ()
  match result.alert with
  | none => raise missingAlertError
  | some alert =>
    emit (.updateLastAlert alert.timestamp latitude longitude)
    emit (.addAlertMarker alert)
    startLiveTracking geo.isSome
    fetchHistory historyResp

/-- `handleAlert`, from the click to the settlement of its chain. -/
def handleAlert (geo : Geolocation) (alertResp : Except String (Response AlertResult))
    (historyResp : Except String (Response AlertsBody)) : Flow Unit := do
  setStatus "Getting location..."
  setDeliveryWarning ""
  emit (.classAdd "alerting")
  setIndicator "emergency"
  emit .playSiren
  tryFinally
    (tryCatch (handleAlertBody geo alertResp historyResp)
      (fun error => do
        setStatus (orElse (some error) "Unable to send alert.")
        setDeliveryWarning "Delivery failed. Please verify email/SMS settings."))
    (do
      emit (.classRemove "alerting")
      setTimeoutSetIndicator "safe" 4000)

/-- The state when `handleAlert` enters its `try`: the five calls before it
are on the trace. -/
def alertBegin (s : Sys) : Sys :=
  { s with trace := s.trace ++
      [.setStatus "Getting location...", .setDeliveryWarning "", .classAdd "alerting",
        .setIndicator "emergency", .playSiren] }

/-- The state when `handleAlert` leaves its `try`/`catch`, given the outcome of
the body: after an error the `catch` block has made its two calls. -/
def alertRecover (r : Except String Unit × Sys) : Sys :=
  match r with
  | (.ok _, s) => s
  | (.error e, s) =>
    { s with trace := s.trace ++
        [.setStatus (orElse (some e) "Unable to send alert."),
          .setDeliveryWarning "Delivery failed. Please verify email/SMS settings."] }

/-- The state after the `finally` block of `handleAlert`. -/
def alertFinish (s : Sys) : Sys :=
  { s with
    lastHandle := s.lastHandle + 1
    trace := s.trace ++ [.classRemove "alerting", .setTimeoutSetIndicator "safe" 4000] }

/-- The last status message in a trace. -/
def lastStatus (tr : List Effect) : Option String :=
  (tr.filterMap (fun e => match e with | .setStatus m => some m | _ => none)).getLast?

/-! ## Sequences of start and stop -/

/-- A click on one of the two tracking buttons. -/
inductive Op where
  | start (geolocation : Bool)
  | stop
  deriving DecidableEq, Repr

/-- The state after one click. -/
def step (s : Sys) : Op → Sys
  | .start g => (startLiveTracking g s).2
  | .stop => (stopLiveTracking s).2

/-- The state after a sequence of clicks. -/
def runOps (ops : List Op) (s : Sys) : Sys := ops.foldl step s

/-! ## The loop in time

The script runs on one thread: a click handler and a timer callback run to
their first `await` without interruption, and what follows an `await` runs
later. A `World` is the script's state together with the clock (ms), the
repeating timers the platform holds for it and the ticks begun so far. -/

/-- How long the stages of one tick take (ms): the location request, then the
two network calls. -/
structure TickTiming where
  location : Nat
  network : Nat
  deriving DecidableEq, Repr

/-- The time from the call of `tick` to the settlement of its chain. -/
def TickTiming.total (d : TickTiming) : Nat := d.location + d.network

/-- What the environment answers to the requests of one tick, and how long it
takes to answer. -/
structure TickEnv where
  geo : Geolocation
  push : Except String (Response MessageBody)
  pull : Except String (Response LocationsBody)
  timing : TickTiming

/-- A repeating timer held by the platform: its handle, its period, and the
earliest time of its next firing. -/
structure Timer where
  handle : Nat
  period : Nat
  next : Nat
  deriving DecidableEq, Repr

/-- A call of `tick`: when it was made and when its chain settles. -/
structure Flight where
  began : Nat
  settles : Nat
  deriving DecidableEq, Repr

/-- The script's state in time. -/
structure World where
  sys : Sys
  now : Nat
  due : List Timer
  flights : List Flight
  deriving DecidableEq, Repr

/-- The world when the script has loaded. -/
def World.init : World := { sys := Sys.init, now := 0, due := [], flights := [] }

/-- What happens to the page: a click on one of the two tracking buttons, or
the platform firing a repeating timer. -/
inductive Event where
  | click (time : Nat) (op : Op)
  | fire (time : Nat) (handle : Nat)
  deriving DecidableEq, Repr

/-- The flight covers time `t`: `tick` has been called and its chain has not
settled before `t`. -/
def Flight.covers (f : Flight) (t : Nat) : Bool := f.began ≤ t && t ≤ f.settles

/-- The number of ticks in flight at time `t`. -/
def inFlightAt (w : World) (t : Nat) : Nat := (w.flights.filter (fun f => f.covers t)).length

/-- A call `tick()` at time `t`: the `k`-th call gets the `k`-th answers of the
environment. The chain of `tick` is run on the state (its calls are recorded
at its beginning) and the flight is entered. -/
def beginTick (parseFloat : JsVal → JsNum) (env : Nat → TickEnv) (t : Nat) (w : World) : World :=
  let k := w.flights.length
  { w with
    sys := (tick parseFloat (env k).geo (env k).push (env k).pull w.sys).2
    flights := w.flights ++ [{ began := t, settles := t + (env k).timing.total }] }

/-- What the calls a handler made at time `t` set going: `tick()` begins a
tick, `setInterval` hands the platform a timer due one period later,
`clearInterval` takes the timer back. -/
def absorb (parseFloat : JsVal → JsNum) (env : Nat → TickEnv) (t : Nat) :
    List Effect → World → World
  | [], w => w
  | .tick :: es, w => absorb parseFloat env t es (beginTick parseFloat env t w)
  | .setInterval h d :: es, w =>
    absorb parseFloat env t es { w with due := w.due ++ [{ handle := h, period := d, next := t + d }] }
  | .clearInterval h :: es, w =>
    absorb parseFloat env t es { w with due := w.due.filter (fun x => !(x.handle == h)) }
  | _ :: es, w => absorb parseFloat env t es w

/-- One event. A click runs `startLiveTracking` or `stopLiveTracking` and sets
going what it called. A timer fires no earlier than it is due (it may fire
late), calls `tick` (the only callback the script registers with
`setInterval`), and is due again one period after it fired. An event the
platform cannot produce (the clock going back, a timer that is not held or not
due) gives `none`. -/
def react (parseFloat : JsVal → JsNum) (env : Nat → TickEnv) (w : World) : Event → Option World
  | .click t op =>
    if w.now ≤ t then
      some (absorb parseFloat env t ((step w.sys op).trace.drop w.sys.trace.length)
        { w with sys := step w.sys op, now := t })
    else none
  | .fire t h =>
    match w.due.find? (fun x => x.handle == h) with
    | some tm =>
      if w.now ≤ t ∧ tm.next ≤ t then
        some (beginTick parseFloat env t
          { w with
            now := t
            due := w.due.map (fun x => if x.handle == h then { x with next := t + x.period } else x) })
      else none
    | none => none

/-- A sequence of events, from the first on. -/
def runEvents (parseFloat : JsVal → JsNum) (env : Nat → TickEnv) :
    List Event → World → Option World
  | [], w => some w
  | e :: es, w =>
    match react parseFloat env w e with
    | some w1 => runEvents parseFloat env es w1
    | none => none

/-- The event is a click on Start that makes `startLiveTracking` call `tick()`
while a tick is in flight. -/
def restartsInFlight (w : World) : Event → Bool
  | .click t (.start g) =>
    (effectsOf (startLiveTracking g) w.sys).contains .tick && !(inFlightAt w t == 0)
  | _ => false

/-- No event of the sequence starts the loop while a tick is in flight. -/
def calm (parseFloat : JsVal → JsNum) (env : Nat → TickEnv) : List Event → World → Bool
  | [], _ => true
  | e :: es, w =>
    !restartsInFlight w e &&
      match react parseFloat env w e with
      | some w1 => calm parseFloat env es w1
      | none => true

/-- A sample whose latitude and longitude both parse to a number (the spec's
"valid sample"). -/
def validSample (parseFloat : JsVal → JsNum) (loc : Sample) : Bool :=
  !(parseFloat loc.latitude).isNaN && !(parseFloat loc.longitude).isNaN

/-- The parsed coordinates of a sample. -/
def coordsOf (parseFloat : JsVal → JsNum) (loc : Sample) : JsNum × JsNum :=
  (parseFloat loc.latitude, parseFloat loc.longitude)

/-- The state agrees with one of the two states of the loop: Stopped (no
handle, flag false, no timer) or Active (a positive handle, flag true, that
one timer). -/
def Consistent (s : Sys) : Prop :=
  match s.liveTrackingInterval with
  | none => s.trackingActive = false ∧ s.timers = []
  | some h => 0 < h ∧ s.trackingActive = true ∧ s.timers = [h]

/-- The world is in order: the loop is Stopped or Active, every tick entered
has begun, no two ticks are in flight at the same time, and the platform holds
no timer for a Stopped loop and, for an Active loop, the one timer of the held
handle, due only after every tick entered has settled. -/
def Steady (w : World) : Prop :=
  Consistent w.sys ∧ (∀ f ∈ w.flights, f.began ≤ w.now) ∧ (∀ t, inFlightAt w t ≤ 1) ∧
  (w.sys.liveTrackingInterval = none → w.due = []) ∧
  (∀ h, w.sys.liveTrackingInterval = some h →
    ∃ next, w.due = [{ handle := h, period := tickPeriod, next := next }] ∧
      ∀ f ∈ w.flights, f.settles < next)

/-- A flow relates every state it starts in to the state it ends in by `R`. -/
def Sat {α : Type} (R : Sys → Sys → Prop) (f : Flow α) : Prop :=
  ∀ s, R s (f s).2

/-- The trace only grows, and only by effects satisfying `P`. -/
def Grows (P : Effect → Prop) (s t : Sys) : Prop :=
  ∃ d, t.trace = s.trace ++ d ∧ ∀ e ∈ d, P e

/-- The loop variables and the timer table are the same. -/
def SameLoop (s t : Sys) : Prop :=
  t.liveTrackingInterval = s.liveTrackingInterval ∧ t.trackingActive = s.trackingActive ∧
    t.timers = s.timers

/-- An effect that sets the status message. -/
def isStatus : Effect → Bool
  | .setStatus _ => true
  | _ => false

/-- An effect that schedules a one-shot timer. -/
def isTimeout : Effect → Bool
  | .setTimeoutSetIndicator _ _ => true
  | _ => false

/-- An effect that asks the platform for a position. -/
def isLocationRequest : Effect → Bool
  | .getCurrentPosition _ _ => true
  | _ => false

/-- An effect by which `startLiveTracking` starts the loop. -/
def isLoopStart : Effect → Bool
  | .setInterval _ _ => true
  | .tick => true
  | .setTrackingStatusView _ => true
  | _ => false

/-- A response with status OK and a JSON body that parses to `b`. -/
def okJson {β : Type} (b : β) : Response β :=
  { ok := true, contentType := some "application/json", text := .ok "", json := .ok b }

/-- The tracking history `[(10,20) at t2, (11,21) at t1]`. -/
def trackingExample : LocationsBody :=
  { locations := some [⟨.number 10, .number 20, "t2"⟩, ⟨.number 11, .number 21, "t1"⟩] }

/-- An alert response in demo mode that also carries a `delivery_results`
array (two entries). -/
def demoWithDeliveries : AlertResult :=
  { alert := some ⟨.number 10, .number 20, "t1"⟩, demo_mode := true,
    delivery_results := some ["email: simulated", "sms: simulated"], message := none }

/-- A 502 answer whose body is a page of text, not JSON. -/
def badGateway : Response AlertResult :=
  { ok := false, contentType := some "text/html", text := .ok "Bad Gateway",
    json := .error "Unexpected token B in JSON at position 0" }

/-- A 500 answer to the tracking-history request with the JSON body
`\x7bmessage: "Internal Server Error"\x7d`: it parses, and has no `locations`. -/
def serverErrorPull : Response LocationsBody :=
  { ok := false, contentType := some "application/json",
    text := .ok "\x7b\"message\": \"Internal Server Error\"\x7d", json := .ok { locations := none } }

/-- A position the platform answers with. -/
def examplePosition : Geolocation := some (.ok (.num 10, .num 20))

/-- Every request of the tick succeeds. -/
def answersOk (timing : TickTiming) : TickEnv :=
  { geo := examplePosition, push := .ok (okJson { message := none }),
    pull := .ok (okJson trackingExample), timing := timing }

/-- Every tick spends 6000 ms acquiring the location (below the 10000 ms
timeout) and no time on the network. -/
def slowLocation : Nat → TickEnv := fun _ => answersOk { location := 6000, network := 0 }

/-- Every tick spends 3000 ms on the location and 1000 ms on the network. -/
def quickTicks : Nat → TickEnv := fun _ => answersOk { location := 3000, network := 1000 }

/-- Start, and the timer firing on time once. -/
def startAndFire : List Event := [.click 0 (.start true), .fire 5000 1]

/-- Start, Stop one second later, Start again one second after that. -/
def startStopStart : List Event :=
  [.click 0 (.start true), .click 1000 .stop, .click 2000 (.start true)]

/-- Start, two firings (the second one late), Stop, and Start again later. -/
def steadyRun : List Event :=
  [.click 0 (.start true), .fire 5000 1, .fire 10250 1, .click 12000 .stop,
    .click 20000 (.start true)]

/-- The built-in `parseFloat` on the values that need no string parsing. -/
def parseFloatPlain : JsVal → JsNum
  | .number v => .num v
  | _ => .nan

/-- The world after `steadyRun` with ticks of 4000 ms. -/
def steadyWorld : World :=
  (runEvents parseFloatPlain quickTicks steadyRun World.init).getD World.init

/-! ## Running flows -/

theorem bind_run {α β : Type} (m : Flow α) (f : α → Flow β) (s : Sys) :
    (m >>= f) s = Flow.andThen m f s := rfl

theorem pure_run {α : Type} (a : α) (s : Sys) : (pure a : Flow α) s = (.ok a, s) := rfl

theorem orElse_some_of_ne (m d : String) (h : m ≠ "") : orElse (some m) d = m := by
  simp [orElse, truthyStr, h]

theorem trimmedValue_jane : trimmedValue (some "Jane") = "Jane" := by decide

theorem trimmedValue_empty : trimmedValue (some "") = "" := by decide

theorem trimmedValue_phone : trimmedValue (some "555-1234") = "555-1234" := by decide

/-! ## Contacts -/

theorem addContact_valid (s : Sys) (resp : Except String (Response MessageBody))
    (contacts : Except String Nat)
    (hn : trimmedValue s.contactNameInput ≠ "")
    (hc : trimmedValue s.contactEmailInput ≠ "" ∨ trimmedValue s.contactPhoneInput ≠ "") :
    ∃ rest, effectsOf (addContact resp contacts) s =
      Effect.fetch "POST" "/add_contact" (.contact (trimmedValue s.contactNameInput)
        (trimmedValue s.contactEmailInput) (trimmedValue s.contactPhoneInput)) :: rest := by
  have hc2 : ¬ (trimmedValue s.contactEmailInput = "" ∧
      trimmedValue s.contactPhoneInput = "") := by tauto
  unfold effectsOf addContact
  simp only [bind_run, Flow.andThen, Flow.read]
  rcases resp with e | r
  · simp [hn, hc2, truthyStr, emit, bind_run, Flow.andThen, await]
  · cases hok : r.ok
    · cases hinc : includes (orElse r.contentType "") "application/json"
      · simp [hn, hc2, truthyStr, emit, bind_run, Flow.andThen, await, hok, hinc,
          setDeliveryWarning]
      · rcases hj : r.json with e | d
        · simp [hn, hc2, truthyStr, emit, bind_run, Flow.andThen, await, hok, hinc,
            setDeliveryWarning, hj]
        · simp [hn, hc2, truthyStr, emit, bind_run, Flow.andThen, await, hok, hinc,
            setDeliveryWarning, hj]
    · rcases contacts with e | n
      · simp [hn, hc2, truthyStr, emit, bind_run, Flow.andThen, await, hok,
          setDeliveryWarning, loadContacts, update]
      · simp [hn, hc2, truthyStr, emit, bind_run, Flow.andThen, await, hok,
          setDeliveryWarning, loadContacts, update]

theorem addContact_no_name (s : Sys) (resp : Except String (Response MessageBody))
    (contacts : Except String Nat) (hn : trimmedValue s.contactNameInput = "") :
    effectsOf (addContact resp contacts) s =
      [.setDeliveryWarning "Name is required to add a contact."] := by
  unfold effectsOf addContact
  simp [bind_run, Flow.andThen, Flow.read, hn, truthyStr, setDeliveryWarning, emit]

theorem addContact_no_channel (s : Sys) (resp : Except String (Response MessageBody))
    (contacts : Except String Nat) (hn : trimmedValue s.contactNameInput ≠ "")
    (he : trimmedValue s.contactEmailInput = "") (hp : trimmedValue s.contactPhoneInput = "") :
    effectsOf (addContact resp contacts) s =
      [.setDeliveryWarning "Add at least an email or phone."] := by
  unfold effectsOf addContact
  simp [bind_run, Flow.andThen, Flow.read, hn, he, hp, truthyStr, setDeliveryWarning, emit]

/-- C4: `addContact` issues the POST to `/add_contact` if and only if the trimmed
name is non-empty and the trimmed email or the trimmed phone is non-empty; with
an empty trimmed name, whatever the email and phone, its only effect is the
warning (no network call of any kind); and the inputs "Jane", "", "555-1234"
are submitted as they are. -/
theorem addContact_posts_iff_valid (s : Sys) (resp : Except String (Response MessageBody))
    (contacts : Except String Nat) :
    ((∃ b, Effect.fetch "POST" "/add_contact" b ∈ effectsOf (addContact resp contacts) s) ↔
      (trimmedValue s.contactNameInput ≠ "" ∧
        (trimmedValue s.contactEmailInput ≠ "" ∨ trimmedValue s.contactPhoneInput ≠ ""))) ∧
    ((∃ m u b, Effect.fetch m u b ∈ effectsOf (addContact resp contacts) s) →
      (trimmedValue s.contactNameInput ≠ "" ∧
        (trimmedValue s.contactEmailInput ≠ "" ∨ trimmedValue s.contactPhoneInput ≠ ""))) ∧
    (trimmedValue s.contactNameInput = "" →
      effectsOf (addContact resp contacts) s =
        [.setDeliveryWarning "Name is required to add a contact."]) ∧
    (s.contactNameInput = some "Jane" → s.contactEmailInput = some "" →
      s.contactPhoneInput = some "555-1234" →
      ∃ rest, effectsOf (addContact resp contacts) s =
        .fetch "POST" "/add_contact" (.contact "Jane" "" "555-1234") :: rest) := by
  have key : (∃ m u b, Effect.fetch m u b ∈ effectsOf (addContact resp contacts) s) →
      (trimmedValue s.contactNameInput ≠ "" ∧
        (trimmedValue s.contactEmailInput ≠ "" ∨ trimmedValue s.contactPhoneInput ≠ "")) := by
    rintro ⟨m, u, b, hb⟩
    by_cases hn : trimmedValue s.contactNameInput = ""
    · rw [addContact_no_name s resp contacts hn] at hb
      simp at hb
    · refine ⟨hn, ?_⟩
      by_contra hc
      push_neg at hc
      rw [addContact_no_channel s resp contacts hn hc.1 hc.2] at hb
      simp at hb
  refine ⟨⟨fun ⟨b, hb⟩ => key ⟨_, _, b, hb⟩, ?_⟩, key, addContact_no_name s resp contacts, ?_⟩
  · rintro ⟨hn, hc⟩
    obtain ⟨rest, hrest⟩ := addContact_valid s resp contacts hn hc
    exact ⟨_, by rw [hrest]; exact List.mem_cons_self _ _⟩
  · intro h1 h2 h3
    have hn : trimmedValue s.contactNameInput ≠ "" := by
      rw [h1, trimmedValue_jane]; decide
    have hc : trimmedValue s.contactEmailInput ≠ "" ∨ trimmedValue s.contactPhoneInput ≠ "" := by
      right; rw [h3, trimmedValue_phone]; decide
    obtain ⟨rest, hrest⟩ := addContact_valid s resp contacts hn hc
    rw [h1, h2, h3, trimmedValue_jane, trimmedValue_empty, trimmedValue_phone] at hrest
    exact ⟨rest, hrest⟩

/-- C4, at a concrete form: the inputs "Jane", "", "555-1234" are posted (here
with the network down). -/
theorem addContact_posts_iff_valid_witness :
    ∃ rest, effectsOf (addContact (.error "Failed to fetch") (.error "Failed to fetch"))
        { Sys.init with contactNameInput := some "Jane", contactPhoneInput := some "555-1234" } =
      .fetch "POST" "/add_contact" (.contact "Jane" "" "555-1234") :: rest :=
  (addContact_posts_iff_valid
    { Sys.init with contactNameInput := some "Jane", contactPhoneInput := some "555-1234" }
    (.error "Failed to fetch") (.error "Failed to fetch")).2.2.2 rfl rfl rfl

/-! ## Tracking history -/

theorem trackingPoints_eq (parseFloat : JsVal → JsNum) (locations : List Sample) :
    trackingPoints parseFloat locations =
      (locations.filter (validSample parseFloat)).map (coordsOf parseFloat) := by
  unfold trackingPoints
  rw [List.filter_map]
  rfl

theorem fetchTrackingHistory_ok (parseFloat : JsVal → JsNum) (r : Response LocationsBody)
    (data : LocationsBody) (hj : r.json = .ok data) (s : Sys) :
    effectsOf (fetchTrackingHistory parseFloat (.ok r)) s =
      .fetch "GET" "/get_tracking_history" .none ::
        ((((data.locations.getD []).filter (validSample parseFloat)).head?.map
            (fun loc => Effect.updateLiveMarker (parseFloat loc.latitude)
              (parseFloat loc.longitude))).toList ++
          [.updateTrackingPath
            (((data.locations.getD []).filter (validSample parseFloat)).map
              (coordsOf parseFloat)).reverse]) := by
  unfold effectsOf fetchTrackingHistory
  simp only [bind_run, Flow.andThen, await, emit, hj, trackingPoints_eq]
  cases hv : (data.locations.getD []).filter (validSample parseFloat) with
  | nil => simp [pure_run, bind_run, Flow.andThen, emit]
  | cons a l => simp [coordsOf, bind_run, Flow.andThen, emit]

theorem fetchTrackingHistory_state_free (parseFloat : JsVal → JsNum)
    (resp : Except String (Response LocationsBody)) (s t : Sys) :
    effectsOf (fetchTrackingHistory parseFloat resp) s =
      effectsOf (fetchTrackingHistory parseFloat resp) t := by
  rcases resp with e | r
  · simp [effectsOf, fetchTrackingHistory, bind_run, Flow.andThen, await, emit]
  · rcases hj : r.json with e | data
    · simp [effectsOf, fetchTrackingHistory, bind_run, Flow.andThen, await, emit, hj]
    · rw [fetchTrackingHistory_ok parseFloat r data hj s,
        fetchTrackingHistory_ok parseFloat r data hj t]

/-- C5: for a tracking-history response whose body parses, `fetchTrackingHistory`
fetches, sets the live marker to the first valid sample in transport order (no
marker call when no sample is valid) and hands `updateTrackingPath` the reverse
of the valid samples in transport order, which is the reverse of the whole
transport order when every sample is valid; the calls are the same whatever
the state, so the same response gives the same path again. -/
theorem fetchTrackingHistory_derivation (parseFloat : JsVal → JsNum)
    (r : Response LocationsBody) (data : LocationsBody) (hj : r.json = .ok data) (s t : Sys) :
    effectsOf (fetchTrackingHistory parseFloat (.ok r)) s =
      .fetch "GET" "/get_tracking_history" .none ::
        ((((data.locations.getD []).filter (validSample parseFloat)).head?.map
            (fun loc => Effect.updateLiveMarker (parseFloat loc.latitude)
              (parseFloat loc.longitude))).toList ++
          [.updateTrackingPath
            (((data.locations.getD []).filter (validSample parseFloat)).map
              (coordsOf parseFloat)).reverse]) ∧
    ((∀ loc ∈ data.locations.getD [], validSample parseFloat loc = true) →
      Effect.updateTrackingPath ((data.locations.getD []).map (coordsOf parseFloat)).reverse ∈
        effectsOf (fetchTrackingHistory parseFloat (.ok r)) s) ∧
    effectsOf (fetchTrackingHistory parseFloat (.ok r)) s =
      effectsOf (fetchTrackingHistory parseFloat (.ok r)) t := by
  refine ⟨fetchTrackingHistory_ok parseFloat r data hj s, ?_,
    fetchTrackingHistory_state_free parseFloat (.ok r) s t⟩
  intro hall
  rw [fetchTrackingHistory_ok parseFloat r data hj s, List.filter_eq_self.mpr hall]
  simp

/-- C5, on the history `[(10,20) at t2, (11,21) at t1]`: the marker goes to
(10,20) and the path is `[(11,21), (10,20)]`. -/
theorem fetchTrackingHistory_derivation_witness :
    effectsOf (fetchTrackingHistory parseFloatPlain (.ok (okJson trackingExample))) Sys.init =
      [.fetch "GET" "/get_tracking_history" .none,
        .updateLiveMarker (.num 10) (.num 20),
        .updateTrackingPath [(.num 11, .num 21), (.num 10, .num 20)]] :=
  (fetchTrackingHistory_derivation parseFloatPlain (okJson trackingExample) trackingExample rfl
    Sys.init Sys.init).1.trans (by decide)

/-! ## Start and stop -/

theorem startLiveTracking_stopped (s : Sys) (h : s.liveTrackingInterval = none) :
    startLiveTracking true s =
      (.ok (), { s with
        trackingActive := true
        liveTrackingInterval := some (s.lastHandle + 1)
        lastHandle := s.lastHandle + 1
        timers := s.timers ++ [s.lastHandle + 1]
        trace := s.trace ++ [.setTrackingStatusView true, .tick,
          .setInterval (s.lastHandle + 1) tickPeriod] }) := by
  simp [startLiveTracking, bind_run, pure_run, Flow.andThen, Flow.read, h, truthyHandle,
    setTrackingStatus, setInterval, update, emit]

theorem startLiveTracking_held (s : Sys) (h : truthyHandle s.liveTrackingInterval = true) :
    startLiveTracking true s = (.ok (), s) := by
  simp [startLiveTracking, bind_run, pure_run, Flow.andThen, Flow.read, h]

theorem startLiveTracking_unsupported (s : Sys) :
    startLiveTracking false s =
      (.ok (), { s with
        trace := s.trace ++ [.setStatus "Geolocation is not supported in this browser."] }) := by
  simp [startLiveTracking, setStatus, emit]

theorem stopLiveTracking_stopped (s : Sys) (h : truthyHandle s.liveTrackingInterval = false) :
    stopLiveTracking s = (.ok (), s) := by
  simp [stopLiveTracking, bind_run, pure_run, Flow.andThen, Flow.read, h]

theorem stopLiveTracking_held (s : Sys) (n : Nat) (h : s.liveTrackingInterval = some n)
    (hn : 0 < n) :
    stopLiveTracking s =
      (.ok (), { s with
        trackingActive := false
        liveTrackingInterval := none
        timers := s.timers.filter (fun t => !(t == n))
        trace := s.trace ++ [.clearInterval n, .setTrackingStatusView false] }) := by
  have hn0 : n ≠ 0 := Nat.pos_iff_ne_zero.mp hn
  simp [stopLiveTracking, bind_run, pure_run, Flow.andThen, Flow.read, h, truthyHandle, hn0,
    setTrackingStatus, clearInterval, update, emit]

theorem consistent_init : Consistent Sys.init := by
  simp [Consistent, Sys.init]

theorem consistent_step (s : Sys) (op : Op) (hs : Consistent s) : Consistent (step s op) := by
  cases op with
  | start g =>
    cases g with
    | false =>
      simp only [step, startLiveTracking_unsupported]
      simpa [Consistent] using hs
    | true =>
      cases h : s.liveTrackingInterval with
      | none =>
        simp only [step, startLiveTracking_stopped s h]
        simp [Consistent, h] at hs ⊢
        simp [hs.2]
      | some n =>
        have hn : 0 < n := by simp [Consistent, h] at hs; exact hs.1
        have ht : truthyHandle s.liveTrackingInterval = true := by
          simp [h, truthyHandle]; omega
        simp only [step, startLiveTracking_held s ht]
        exact hs
  | stop =>
    cases h : s.liveTrackingInterval with
    | none =>
      have ht : truthyHandle s.liveTrackingInterval = false := by simp [h, truthyHandle]
      simp only [step, stopLiveTracking_stopped s ht]
      exact hs
    | some n =>
      have hs2 := hs
      simp [Consistent, h] at hs2
      simp only [step, stopLiveTracking_held s n h hs2.1]
      simp [Consistent, hs2.2.2]

theorem consistent_runOps (ops : List Op) (s : Sys) (hs : Consistent s) :
    Consistent (runOps ops s) := by
  induction ops generalizing s with
  | nil => exact hs
  | cons op ops ih => exact ih (step s op) (consistent_step s op hs)

/-- C3: from the Stopped state with geolocation available, a second call of
`startLiveTracking` returns at once with the state untouched (trace included);
two calls in a row end in the same state as one call, and together they set the
flag, run one immediate tick and schedule one repeating timer of 5000 ms. -/
theorem startLiveTracking_idempotent (s : Sys) (h : s.liveTrackingInterval = none) :
    startLiveTracking true (startLiveTracking true s).2 = (.ok (), (startLiveTracking true s).2) ∧
    (startLiveTracking true >>= fun _ => startLiveTracking true) s = startLiveTracking true s ∧
    effectsOf (startLiveTracking true >>= fun _ => startLiveTracking true) s =
      [.setTrackingStatusView true, .tick, .setInterval (s.lastHandle + 1) 5000] ∧
    (startLiveTracking true s).2.timers = s.timers ++ [s.lastHandle + 1] ∧
    (startLiveTracking true s).2.liveTrackingInterval = some (s.lastHandle + 1) ∧
    (startLiveTracking true s).2.trackingActive = true := by
  have h2 : startLiveTracking true (startLiveTracking true s).2 =
      (.ok (), (startLiveTracking true s).2) := by
    apply startLiveTracking_held
    simp [startLiveTracking_stopped s h, truthyHandle]
  have h3 : (startLiveTracking true >>= fun _ => startLiveTracking true) s =
      startLiveTracking true s := by
    have h2c := h2
    rw [bind_run]
    unfold Flow.andThen
    rw [startLiveTracking_stopped s h] at h2c ⊢
    exact h2c
  refine ⟨h2, h3, ?_, ?_, ?_, ?_⟩
  · unfold effectsOf
    rw [h3, startLiveTracking_stopped s h]
    simp [tickPeriod]
  · rw [startLiveTracking_stopped s h]
  · rw [startLiveTracking_stopped s h]
  · rw [startLiveTracking_stopped s h]

/-- C3, from the initial state: two calls schedule the single timer 1. -/
theorem startLiveTracking_idempotent_witness :
    effectsOf (startLiveTracking true >>= fun _ => startLiveTracking true) Sys.init =
      [.setTrackingStatusView true, .tick, .setInterval 1 5000] :=
  (startLiveTracking_idempotent Sys.init rfl).2.2.1

/-- C10: after any sequence of `startLiveTracking` and `stopLiveTracking` calls
from the initial state, at most one repeating timer is scheduled, it is the one
whose handle is held, and the tracking flag is true exactly when a handle is
held; `stopLiveTracking` on a Stopped loop returns the state untouched, and on
an Active loop it clears the held timer, resets handle and flag, and leaves no
timer scheduled. -/
theorem loop_single_timer (ops : List Op) :
    (runOps ops Sys.init).timers.length ≤ 1 ∧
    (runOps ops Sys.init).timers = (runOps ops Sys.init).liveTrackingInterval.toList ∧
    ((runOps ops Sys.init).trackingActive = true ↔
      ∃ h, (runOps ops Sys.init).liveTrackingInterval = some h) ∧
    ((runOps ops Sys.init).liveTrackingInterval = none →
      stopLiveTracking (runOps ops Sys.init) = (.ok (), runOps ops Sys.init)) ∧
    (∀ h, (runOps ops Sys.init).liveTrackingInterval = some h →
      stopLiveTracking (runOps ops Sys.init) =
        (.ok (), { runOps ops Sys.init with
          trackingActive := false
          liveTrackingInterval := none
          timers := []
          trace := (runOps ops Sys.init).trace ++
            [.clearInterval h, .setTrackingStatusView false] })) := by
  have hc := consistent_runOps ops Sys.init consistent_init
  generalize runOps ops Sys.init = s at hc ⊢
  cases hl : s.liveTrackingInterval with
  | none =>
    simp [Consistent, hl] at hc
    refine ⟨by simp [hc.2], by simp [hc.2], by simp [hc.1], fun _ => ?_, by simp⟩
    exact stopLiveTracking_stopped s (by simp [hl, truthyHandle])
  | some n =>
    simp [Consistent, hl] at hc
    refine ⟨by simp [hc.2.2], by simp [hc.2.2], by simp [hc.2.1], by simp, ?_⟩
    intro h hh
    cases hh
    rw [stopLiveTracking_held s n hl hc.1]
    simp [hc.2.2]

/-- C10, after one start: stopping clears timer 1 and leaves none. -/
theorem loop_single_timer_witness :
    stopLiveTracking (runOps [.start true] Sys.init) =
      (.ok (), { runOps [.start true] Sys.init with
        trackingActive := false
        liveTrackingInterval := none
        timers := []
        trace := (runOps [.start true] Sys.init).trace ++
          [.clearInterval 1, .setTrackingStatusView false] }) :=
  (loop_single_timer [.start true]).2.2.2.2 1 rfl

/-! ## Demo mode -/

/-- C1 at the failing input: a successful response with `demo_mode: true` and a
`delivery_results` array of two entries ends with the status "Alert sent to 2
emergency contacts"; the demo message is set and then overwritten. -/
theorem demo_status_overwritten :
    lastStatus (effectsOf (handleAlert examplePosition (.ok (okJson demoWithDeliveries))
      (.ok (okJson { alerts := none }))) Sys.init) =
      some "Alert sent to 2 emergency contacts" ∧
    Effect.setStatus "Demo mode: Alert simulated successfully." ∈
      effectsOf (handleAlert examplePosition (.ok (okJson demoWithDeliveries))
        (.ok (okJson { alerts := none }))) Sys.init := by
  constructor <;> decide

/-! ## Relational rules for flows -/

theorem sat_pure {α : Type} {R : Sys → Sys → Prop} (hr : ∀ s, R s s) (a : α) :
    Sat R (pure a : Flow α) := fun s => hr s

theorem sat_await {α : Type} {R : Sys → Sys → Prop} (hr : ∀ s, R s s) (o : Except String α) :
    Sat R (await o) := fun s => hr s

theorem sat_raise {α : Type} {R : Sys → Sys → Prop} (hr : ∀ s, R s s) (msg : String) :
    Sat R (raise msg : Flow α) := fun s => hr s

theorem sat_read {R : Sys → Sys → Prop} (hr : ∀ s, R s s) : Sat R Flow.read := fun s => hr s

theorem sat_bind {α β : Type} {R : Sys → Sys → Prop}
    (ht : ∀ a b c, R a b → R b c → R a c) {m : Flow α} {f : α → Flow β}
    (hm : Sat R m) (hf : ∀ a, Sat R (f a)) : Sat R (m >>= f) := by
  intro s
  have h1 := hm s
  rw [bind_run]
  unfold Flow.andThen
  rcases hms : m s with ⟨r, s1⟩
  rw [hms] at h1
  cases r with
  | error e => exact h1
  | ok a => exact ht _ _ _ h1 (hf a s1)

theorem grows_refl (P : Effect → Prop) (s : Sys) : Grows P s s :=
  ⟨[], by simp, by simp⟩

theorem grows_trans (P : Effect → Prop) (a b c : Sys) (h1 : Grows P a b) (h2 : Grows P b c) :
    Grows P a c := by
  obtain ⟨d1, e1, p1⟩ := h1
  obtain ⟨d2, e2, p2⟩ := h2
  refine ⟨d1 ++ d2, by rw [e2, e1, List.append_assoc], ?_⟩
  intro e he
  rcases List.mem_append.mp he with h | h
  · exact p1 e h
  · exact p2 e h

theorem grows_emit {P : Effect → Prop} (e : Effect) (he : P e) : Sat (Grows P) (emit e) :=
  fun s => ⟨[e], rfl, by simpa using he⟩

theorem grows_update {P : Effect → Prop} (g : Sys → Sys) (hg : ∀ s, (g s).trace = s.trace) :
    Sat (Grows P) (update g) :=
  fun s => ⟨[], by simp [update, hg], by simp⟩

theorem sameLoop_refl (s : Sys) : SameLoop s s := ⟨rfl, rfl, rfl⟩

theorem sameLoop_trans (a b c : Sys) (h1 : SameLoop a b) (h2 : SameLoop b c) : SameLoop a c :=
  ⟨h2.1.trans h1.1, h2.2.1.trans h1.2.1, h2.2.2.trans h1.2.2⟩

theorem sameLoop_emit (e : Effect) : Sat SameLoop (emit e) := fun _ => ⟨rfl, rfl, rfl⟩

theorem sameLoop_update (g : Sys → Sys) (hg : ∀ s, SameLoop s (g s)) : Sat SameLoop (update g) :=
  fun s => hg s

theorem getLocation_quiet (geo : Geolocation) :
    Sat (Grows (fun e => isTimeout e = false)) (getLocation geo) := by
  unfold getLocation
  repeat' (first
    | exact grows_emit _ rfl
    | exact sat_await (grows_refl _) _
    | exact sat_raise (grows_refl _) _
    | exact sat_pure (grows_refl _) _
    | apply sat_bind (grows_trans _)
    | split)

theorem sendAlert_quiet (lat lng : JsNum) (ce cp : String)
    (resp : Except String (Response AlertResult)) :
    Sat (Grows (fun e => isTimeout e = false)) (sendAlert lat lng ce cp resp) := by
  unfold sendAlert
  repeat' (first
    | exact grows_emit _ rfl
    | exact sat_await (grows_refl _) _
    | exact sat_raise (grows_refl _) _
    | exact sat_pure (grows_refl _) _
    | apply sat_bind (grows_trans _)
    | dsimp only
    | split
    | intro _)

theorem fetchHistory_quiet (resp : Except String (Response AlertsBody)) :
    Sat (Grows (fun e => isTimeout e = false)) (fetchHistory resp) := by
  unfold fetchHistory
  repeat' (first
    | exact grows_emit _ rfl
    | exact sat_await (grows_refl _) _
    | exact sat_pure (grows_refl _) _
    | apply sat_bind (grows_trans _)
    | intro _)

theorem startLiveTracking_quiet (g : Bool) :
    Sat (Grows (fun e => isTimeout e = false)) (startLiveTracking g) := by
  unfold startLiveTracking setTrackingStatus setInterval setStatus
  repeat' (first
    | exact grows_emit _ rfl
    | exact grows_update _ (fun _ => rfl)
    | exact sat_read (grows_refl _)
    | exact sat_pure (grows_refl _) _
    | apply sat_bind (grows_trans _)
    | dsimp only
    | split
    | intro _)

theorem handleAlertBody_quiet (geo : Geolocation) (alertResp : Except String (Response AlertResult))
    (historyResp : Except String (Response AlertsBody)) :
    Sat (Grows (fun e => isTimeout e = false)) (handleAlertBody geo alertResp historyResp) := by
  unfold handleAlertBody setStatus
  repeat' (first
    | exact grows_emit _ rfl
    | exact grows_update _ (fun _ => rfl)
    | exact getLocation_quiet _
    | exact sendAlert_quiet _ _ _ _ _
    | exact startLiveTracking_quiet _
    | exact fetchHistory_quiet _
    | exact sat_raise (grows_refl _) _
    | exact sat_pure (grows_refl _) _
    | apply sat_bind (grows_trans _)
    | dsimp only
    | split
    | intro _)

/-! ## The alert flow -/

theorem handleAlert_run (geo : Geolocation) (alertResp : Except String (Response AlertResult))
    (historyResp : Except String (Response AlertsBody)) (s : Sys) :
    handleAlert geo alertResp historyResp s =
      (.ok (), alertFinish (alertRecover
        (handleAlertBody geo alertResp historyResp (alertBegin s)))) := by
  unfold handleAlert
  simp only [bind_run, Flow.andThen, Flow.tryFinally, Flow.tryCatch, setStatus,
    setDeliveryWarning, setIndicator, setTimeoutSetIndicator, emit, update, List.append_assoc,
    List.singleton_append, List.cons_append, List.nil_append]
  rcases hb : handleAlertBody geo alertResp historyResp (alertBegin s) with ⟨r, s1⟩
  simp only [alertBegin, List.append_assoc, List.singleton_append, List.cons_append,
    List.nil_append] at hb
  rw [hb]
  cases r with
  | ok u => simp [alertRecover, alertFinish]
  | error e => simp [alertRecover, alertFinish]

theorem alertRecover_trace (r : Except String Unit × Sys) :
    ∃ c, (alertRecover r).trace = r.2.trace ++ c ∧
      (∀ e ∈ c, isTimeout e = false ∧ isLoopStart e = false) ∧ SameLoop r.2 (alertRecover r) := by
  rcases r with ⟨r, s1⟩
  cases r with
  | ok u => exact ⟨[], by simp [alertRecover], by simp, sameLoop_refl _⟩
  | error e =>
    refine ⟨_, rfl, ?_, ⟨rfl, rfl, rfl⟩⟩
    intro x hx
    simp at hx
    rcases hx with h | h <;> subst h <;> exact ⟨rfl, rfl⟩

/-- C6: every run of `handleAlert` completes without passing an error on; its
first calls put the indicator in "emergency" before anything else happens (the
location request included), its last call schedules the reset to "safe" with a
delay of 4000 ms, and that is the only one-shot timer the run schedules. -/
theorem handleAlert_resets_once (geo : Geolocation)
    (alertResp : Except String (Response AlertResult))
    (historyResp : Except String (Response AlertsBody)) (s : Sys) :
    (handleAlert geo alertResp historyResp s).1 = .ok () ∧
    (∃ mid, effectsOf (handleAlert geo alertResp historyResp) s =
        [.setStatus "Getting location...", .setDeliveryWarning "", .classAdd "alerting",
          .setIndicator "emergency", .playSiren] ++ mid ++
        [.classRemove "alerting", .setTimeoutSetIndicator "safe" 4000] ∧
      ∀ e ∈ mid, isTimeout e = false) ∧
    (∃ pre post, effectsOf (handleAlert geo alertResp historyResp) s =
        pre ++ .setIndicator "emergency" :: post ∧ ∀ e ∈ pre, isLocationRequest e = false) ∧
    (effectsOf (handleAlert geo alertResp historyResp) s).filter isTimeout =
      [.setTimeoutSetIndicator "safe" 4000] ∧
    (effectsOf (handleAlert geo alertResp historyResp) s).getLast? =
      some (.setTimeoutSetIndicator "safe" 4000) := by
  obtain ⟨d, hd, hdq⟩ := handleAlertBody_quiet geo alertResp historyResp (alertBegin s)
  obtain ⟨c, hc, hcq, -⟩ := alertRecover_trace (handleAlertBody geo alertResp historyResp (alertBegin s))
  have heff : effectsOf (handleAlert geo alertResp historyResp) s =
      [.setStatus "Getting location...", .setDeliveryWarning "", .classAdd "alerting",
          .setIndicator "emergency", .playSiren] ++ (d ++ c) ++
        [.classRemove "alerting", .setTimeoutSetIndicator "safe" 4000] := by
    unfold effectsOf
    rw [handleAlert_run]
    show List.drop _ ((alertRecover _).trace ++ _) = _
    rw [hc, hd]
    simp [alertBegin]
  have hmid : ∀ e ∈ d ++ c, isTimeout e = false := by
    intro e he
    rcases List.mem_append.mp he with h | h
    · exact hdq e h
    · exact (hcq e h).1
  refine ⟨by rw [handleAlert_run], ⟨d ++ c, heff, hmid⟩, ?_, ?_, ?_⟩
  · refine ⟨[.setStatus "Getting location...", .setDeliveryWarning "", .classAdd "alerting"],
      .playSiren :: ((d ++ c) ++ [.classRemove "alerting", .setTimeoutSetIndicator "safe" 4000]),
      ?_, ?_⟩
    · rw [heff]; simp
    · intro e he
      simp at he
      rcases he with h | h | h <;> subst h <;> rfl
  · rw [heff]
    have hnone : (d ++ c).filter isTimeout = [] := by
      rw [List.filter_eq_nil_iff]
      intro e he
      simp [hmid e he]
    rw [List.filter_append, List.filter_append, hnone]
    rfl
  · rw [heff]
    have hsplit : ∀ l : List Effect,
        l ++ [Effect.classRemove "alerting", Effect.setTimeoutSetIndicator "safe" 4000] =
          (l ++ [Effect.classRemove "alerting"]) ++ [Effect.setTimeoutSetIndicator "safe" 4000] := by
      intro l; simp
    rw [hsplit, List.getLast?_concat]

/-- C6, with geolocation missing: the run still ends by scheduling the one
reset. -/
theorem handleAlert_resets_once_witness :
    (effectsOf (handleAlert none (.error "Failed to fetch") (.error "Failed to fetch"))
        Sys.init).filter isTimeout = [.setTimeoutSetIndicator "safe" 4000] :=
  (handleAlert_resets_once none (.error "Failed to fetch") (.error "Failed to fetch")
    Sys.init).2.2.2.1

/-! ## The tick -/

theorem tickBody_sameLoop (parseFloat : JsVal → JsNum) (geo : Geolocation)
    (push : Except String (Response MessageBody))
    (pull : Except String (Response LocationsBody)) :
    Sat SameLoop (tickBody parseFloat geo push pull) := by
  unfold tickBody getLocation sendLiveLocation fetchTrackingHistory
  repeat' (first
    | exact sameLoop_emit _
    | exact sameLoop_update _ (fun _ => ⟨rfl, rfl, rfl⟩)
    | exact sat_await sameLoop_refl _
    | exact sat_raise sameLoop_refl _
    | exact sat_pure sameLoop_refl _
    | apply sat_bind sameLoop_trans
    | dsimp only
    | split
    | intro _)

theorem tickBody_grows (parseFloat : JsVal → JsNum) (geo : Geolocation)
    (push : Except String (Response MessageBody))
    (pull : Except String (Response LocationsBody)) :
    Sat (Grows (fun e => isStatus e = false)) (tickBody parseFloat geo push pull) := by
  unfold tickBody getLocation sendLiveLocation fetchTrackingHistory
  repeat' (first
    | exact grows_emit _ rfl
    | exact grows_update _ (fun _ => rfl)
    | exact sat_await (grows_refl _) _
    | exact sat_raise (grows_refl _) _
    | exact sat_pure (grows_refl _) _
    | apply sat_bind (grows_trans _)
    | dsimp only
    | split
    | intro _)

theorem lastStatus_none (d : List Effect) (h : ∀ e ∈ d, isStatus e = false) :
    lastStatus d = none := by
  have hnil : d.filterMap (fun e => match e with | .setStatus m => some m | _ => none) = [] := by
    rw [List.filterMap_eq_nil_iff]
    intro e he
    have := h e he
    cases e <;> simp_all [isStatus]
  simp [lastStatus, hnil]

theorem lastStatus_concat (d : List Effect) (m : String) :
    lastStatus (d ++ [.setStatus m]) = some m := by
  simp [lastStatus, List.filterMap_append]

theorem tick_run (parseFloat : JsVal → JsNum) (geo : Geolocation)
    (push : Except String (Response MessageBody))
    (pull : Except String (Response LocationsBody)) (s : Sys) :
    (tick parseFloat geo push pull s).1 = .ok () ∧
    (∀ e, (tickBody parseFloat geo push pull s).1 = .error e →
      effectsOf (tick parseFloat geo push pull) s =
        effectsOf (tickBody parseFloat geo push pull) s ++
          [.setStatus (orElse (some e) "Unable to update live tracking.")]) ∧
    SameLoop s (tick parseFloat geo push pull s).2 ∧
    ((tickBody parseFloat geo push pull s).1 = .ok () →
      effectsOf (tick parseFloat geo push pull) s =
        effectsOf (tickBody parseFloat geo push pull) s) ∧
    (∀ e ∈ effectsOf (tickBody parseFloat geo push pull) s, isStatus e = false) := by
  obtain ⟨d, hd, hdq⟩ := tickBody_grows parseFloat geo push pull s
  have hl := tickBody_sameLoop parseFloat geo push pull s
  have hbody : effectsOf (tickBody parseFloat geo push pull) s = d := by
    simp [effectsOf, hd]
  rw [hbody]
  unfold effectsOf tick Flow.tryCatch
  rcases hb : tickBody parseFloat geo push pull s with ⟨r, s1⟩
  rw [hb] at hd hl
  cases r with
  | ok u =>
    refine ⟨rfl, ?_, hl, ?_, hdq⟩
    · intro e he
      cases he
    · intro _
      simp only at hd
      simp [hd]
  | error e =>
    refine ⟨rfl, ?_, ?_, ?_, hdq⟩
    · intro e2 he
      cases he
      simp only at hd
      simp [setStatus, emit, hd]
    · exact ⟨hl.1, hl.2.1, hl.2.2⟩
    · intro he
      cases he

/-- C7, as the code has it: a tick passes no error on to its caller and leaves
the timer handle, the tracking flag and the scheduled timers as they were,
whatever the platform and the server answer. It sets a status message exactly
when its body throws, and then as its last call: the error message, or the
fallback text when the message is empty. The body throws when geolocation is
missing or rejects, when the push is rejected by the network or answered with
a status that is not OK, and when the pull is rejected by the network or its
body does not parse. A pull whose body parses is not a failure whatever its
status: the body does not throw and no status message is set. -/
theorem tick_never_stops_loop (parseFloat : JsVal → JsNum) (geo : Geolocation)
    (push : Except String (Response MessageBody))
    (pull : Except String (Response LocationsBody)) (s : Sys) :
    (tick parseFloat geo push pull s).1 = .ok () ∧
    (tick parseFloat geo push pull s).2.liveTrackingInterval = s.liveTrackingInterval ∧
    (tick parseFloat geo push pull s).2.trackingActive = s.trackingActive ∧
    (tick parseFloat geo push pull s).2.timers = s.timers ∧
    (∀ e, (tickBody parseFloat geo push pull s).1 = .error e →
      effectsOf (tick parseFloat geo push pull) s =
        effectsOf (tickBody parseFloat geo push pull) s ++
          [.setStatus (orElse (some e) "Unable to update live tracking.")]) ∧
    (geo = none →
      (tickBody parseFloat geo push pull s).1 = .error "Geolocation is not supported.") ∧
    (∀ e, geo = some (.error e) → (tickBody parseFloat geo push pull s).1 = .error e) ∧
    (∀ pos e, geo = some (.ok pos) → push = .error e →
      (tickBody parseFloat geo push pull s).1 = .error e) ∧
    (∀ pos r d, geo = some (.ok pos) → push = .ok r → r.ok = false → r.json = .ok d →
      (tickBody parseFloat geo push pull s).1 = .error (orElse d.message "Live tracking failed.")) ∧
    (∀ pos r d e, geo = some (.ok pos) → push = .ok r → r.ok = true → r.json = .ok d →
      pull = .error e → (tickBody parseFloat geo push pull s).1 = .error e) ∧
    (∀ pos r d q e, geo = some (.ok pos) → push = .ok r → r.ok = true → r.json = .ok d →
      pull = .ok q → q.json = .error e → (tickBody parseFloat geo push pull s).1 = .error e) ∧
    (∀ pos r d q data, geo = some (.ok pos) → push = .ok r → r.ok = true → r.json = .ok d →
      pull = .ok q → q.json = .ok data →
      (tickBody parseFloat geo push pull s).1 = .ok ()) ∧
    (∀ e, (tickBody parseFloat geo push pull s).1 = .error e →
      lastStatus (effectsOf (tick parseFloat geo push pull) s) =
        some (orElse (some e) "Unable to update live tracking.")) ∧
    ((tickBody parseFloat geo push pull s).1 = .ok () →
      lastStatus (effectsOf (tick parseFloat geo push pull) s) = none) := by
  obtain ⟨h1, h2, h3, h4, h5⟩ := tick_run parseFloat geo push pull s
  refine ⟨h1, h3.1, h3.2.1, h3.2.2, h2, ?_, ?_, ?_, ?_, ?_, ?_, ?_, ?_, ?_⟩
  · intro hg
    subst hg
    simp [tickBody, getLocation, bind_run, Flow.andThen, raise]
  · intro e hg
    subst hg
    simp [tickBody, getLocation, bind_run, Flow.andThen, emit, await]
  · intro pos e hg hp
    subst hg hp
    simp [tickBody, getLocation, sendLiveLocation, bind_run, Flow.andThen, emit, await, update]
  · intro pos r d hg hp hok hj
    subst hg hp
    simp [tickBody, getLocation, sendLiveLocation, bind_run, Flow.andThen, emit, await, update,
      hok, hj, raise]
  · intro pos r d e hg hp hok hj hq
    subst hg hp hq
    simp [tickBody, getLocation, sendLiveLocation, fetchTrackingHistory, bind_run, Flow.andThen,
      emit, await, update, hok, hj]
  · intro pos r d q e hg hp hok hj hq hqj
    subst hg hp hq
    simp [tickBody, getLocation, sendLiveLocation, fetchTrackingHistory, bind_run, Flow.andThen,
      emit, await, update, hok, hj, hqj]
  · intro pos r d q data hg hp hok hj hq hqj
    subst hg hp hq
    simp only [tickBody, getLocation, sendLiveLocation, fetchTrackingHistory, bind_run,
      Flow.andThen, emit, await, update, hok, hj, hqj]
    cases trackingPoints parseFloat (data.locations.getD []) <;> rfl
  · intro e he
    rw [h2 e he, lastStatus_concat]
  · intro hok
    rw [h4 hok]
    exact lastStatus_none _ h5

/-- C7, when the user denies the location request: the tick reports it and
then ends normally. -/
theorem tick_never_stops_loop_witness :
    effectsOf (tick parseFloatPlain (some (.error "User denied Geolocation"))
        (.error "Failed to fetch") (.error "Failed to fetch")) Sys.init =
      [.getCurrentPosition 10000 0, .setStatus "User denied Geolocation"] :=
  ((tick_never_stops_loop parseFloatPlain (some (.error "User denied Geolocation"))
    (.error "Failed to fetch") (.error "Failed to fetch") Sys.init).2.2.2.2.1
      "User denied Geolocation" rfl).trans (by decide)

/-- C7 fails as stated: when the tracking-history request is answered with
status 500 and a JSON body carrying only a message, the tick sets no status
message; it goes on to hand the empty path to the map. -/
theorem tick_silent_on_failed_pull :
    serverErrorPull.ok = false ∧
    effectsOf (tick parseFloatPlain examplePosition (.ok (okJson { message := none }))
        (.ok serverErrorPull)) Sys.init =
      [.getCurrentPosition 10000 0, .updateCoords (.num 10) (.num 20),
        .updateLiveMarker (.num 10) (.num 20),
        .fetch "POST" "/update_location" (.location (.num 10) (.num 20)),
        .fetch "GET" "/get_tracking_history" .none, .updateTrackingPath []] ∧
    lastStatus (effectsOf (tick parseFloatPlain examplePosition (.ok (okJson { message := none }))
        (.ok serverErrorPull)) Sys.init) = none := by
  refine ⟨rfl, by decide, by decide⟩

/-! ## Alert send -/

theorem sendAlert_eq (lat lng : JsNum) (ce cp : String)
    (resp : Except String (Response AlertResult)) (s t : Sys) :
    sendAlert lat lng ce cp resp t =
      ((sendAlert lat lng ce cp resp s).1,
        { t with trace := t.trace ++ [.fetch "POST" "/send_alert" (.alert lat lng ce cp)] }) := by
  unfold sendAlert
  simp only [bind_run, Flow.andThen, emit, await]
  rcases resp with e | r
  · rfl
  · cases hct : isJsonType r.contentType
    · rcases htx : r.text with e | tx
      · simp [bind_run, Flow.andThen, await, htx, hct]
      · simp [bind_run, Flow.andThen, await, htx, raise, hct]
    · rcases hj : r.json with e | d
      · simp [bind_run, Flow.andThen, await, hj, hct]
      · cases hok : r.ok
        · simp [bind_run, Flow.andThen, await, hj, raise, hct, hok]
        · simp [bind_run, Flow.andThen, await, hj, pure_run, hct, hok]

theorem sendAlert_outcome (lat lng : JsNum) (ce cp : String) (r : Response AlertResult)
    (s : Sys) :
    (sendAlert lat lng ce cp (.ok r) s).1 =
      if isJsonType r.contentType then
        match r.json with
        | .error e => .error e
        | .ok d => if r.ok then .ok d else .error (orElse d.message "Alert failed")
      else
        match r.text with
        | .error e => .error e
        | .ok t => .error ("Server error: " ++ t) := by
  unfold sendAlert
  simp only [bind_run, Flow.andThen, emit, await]
  cases hct : isJsonType r.contentType
  · rcases htx : r.text with e | tx
    · simp [bind_run, Flow.andThen, await, htx, hct]
    · simp [bind_run, Flow.andThen, await, htx, raise, hct]
  · rcases hj : r.json with e | d
    · simp [bind_run, Flow.andThen, await, hj, hct]
    · cases hok : r.ok
      · simp [bind_run, Flow.andThen, await, hj, raise, hct, hok]
      · simp [bind_run, Flow.andThen, await, hj, pure_run, hct, hok]

theorem handleAlertBody_send_fails (pos : JsNum × JsNum)
    (alertResp : Except String (Response AlertResult))
    (historyResp : Except String (Response AlertsBody)) (s : Sys) (e : String)
    (he : (sendAlert pos.1 pos.2 "" "" alertResp s).1 = .error e) :
    handleAlertBody (some (.ok pos)) alertResp historyResp s =
      (.error e, { s with
        currentPosition := some pos
        trace := s.trace ++ [.getCurrentPosition 10000 0, .updateCoords pos.1 pos.2,
          .updateMap pos.1 pos.2, .setStatus "Sending alert...",
          .fetch "POST" "/send_alert" (.alert pos.1 pos.2 "" "")] }) := by
  unfold handleAlertBody
  simp only [bind_run, Flow.andThen, getLocation, emit, await, update, setStatus]
  rw [sendAlert_eq pos.1 pos.2 "" "" alertResp s, he]
  simp [locationTimeout]

/-- C9: on a response, `sendAlert` returns `d` exactly when the content type is
JSON, the status is OK and `d` is the parsed body; in every other case it
fails. With a content type that is not JSON it fails with "Server error: "
followed by the body text; with a JSON body and a status that is not OK it
fails with the body's `message`, or with "Alert failed" when the message is
missing or empty. It makes its one request and no other; and when it fails
inside `handleAlert`, the run makes that one request, reports the error through
the status and the delivery warning of the failure branch, and ends. -/
theorem sendAlert_contract (lat lng : JsNum) (ce cp : String) (r : Response AlertResult)
    (historyResp : Except String (Response AlertsBody)) (s : Sys) :
    (∀ d, (sendAlert lat lng ce cp (.ok r) s).1 = .ok d ↔
      (isJsonType r.contentType = true ∧ r.ok = true ∧ r.json = .ok d)) ∧
    (¬ (isJsonType r.contentType = true ∧ r.ok = true) →
      ∃ e, (sendAlert lat lng ce cp (.ok r) s).1 = .error e) ∧
    (isJsonType r.contentType = false → ∀ t, r.text = .ok t →
      (sendAlert lat lng ce cp (.ok r) s).1 = .error ("Server error: " ++ t)) ∧
    (isJsonType r.contentType = true → r.ok = false → ∀ d, r.json = .ok d →
      (sendAlert lat lng ce cp (.ok r) s).1 = .error (orElse d.message "Alert failed") ∧
      (d.message = none ∨ d.message = some "" →
        (sendAlert lat lng ce cp (.ok r) s).1 = .error "Alert failed") ∧
      (∀ m, d.message = some m → m ≠ "" →
        (sendAlert lat lng ce cp (.ok r) s).1 = .error m)) ∧
    effectsOf (sendAlert lat lng ce cp (.ok r)) s =
      [.fetch "POST" "/send_alert" (.alert lat lng ce cp)] ∧
    (∀ e, (sendAlert lat lng "" "" (.ok r) s).1 = .error e →
      effectsOf (handleAlert (some (.ok (lat, lng))) (.ok r) historyResp) s =
        [.setStatus "Getting location...", .setDeliveryWarning "", .classAdd "alerting",
          .setIndicator "emergency", .playSiren, .getCurrentPosition 10000 0,
          .updateCoords lat lng, .updateMap lat lng, .setStatus "Sending alert...",
          .fetch "POST" "/send_alert" (.alert lat lng "" ""),
          .setStatus (orElse (some e) "Unable to send alert."),
          .setDeliveryWarning "Delivery failed. Please verify email/SMS settings.",
          .classRemove "alerting", .setTimeoutSetIndicator "safe" 4000]) := by
  have hout := sendAlert_outcome lat lng ce cp r s
  refine ⟨?_, ?_, ?_, ?_, ?_, ?_⟩
  · intro d
    rw [hout]
    cases hct : isJsonType r.contentType
    · rcases htx : r.text with e | tx <;> simp
    · rcases hj : r.json with e | d2
      · simp
      · cases hok : r.ok <;> simp
  · intro hne
    rw [hout]
    cases hct : isJsonType r.contentType
    · rcases htx : r.text with e | tx <;> simp
    · rcases hj : r.json with e | d2
      · simp
      · cases hok : r.ok
        · simp
        · exact absurd ⟨hct, hok⟩ hne
  · intro hct t htx
    rw [hout, hct, htx]
    simp
  · intro hct hok d hj
    have hmain : (sendAlert lat lng ce cp (.ok r) s).1 =
        .error (orElse d.message "Alert failed") := by
      rw [hout, hct, hj, hok]
      simp
    refine ⟨hmain, ?_, ?_⟩
    · intro hm
      rw [hmain]
      rcases hm with hm | hm <;> rw [hm] <;> rfl
    · intro m hm hne
      rw [hmain, hm, orElse_some_of_ne m _ hne]
  · unfold effectsOf
    rw [sendAlert_eq lat lng ce cp (.ok r) s s]
    simp
  · intro e he
    unfold effectsOf
    rw [handleAlert_run, handleAlertBody_send_fails (lat, lng) (.ok r) historyResp (alertBegin s) e
      (by rw [sendAlert_eq lat lng "" "" (.ok r) s (alertBegin s)]; exact he)]
    simp [alertRecover, alertFinish, alertBegin]

/-- C9, on a 502 page that is not JSON: the error is "Server error: Bad
Gateway". -/
theorem sendAlert_contract_witness :
    (sendAlert (.num 10) (.num 20) "" "" (.ok badGateway) Sys.init).1 =
      .error "Server error: Bad Gateway" :=
  (sendAlert_contract (.num 10) (.num 20) "" "" badGateway (.error "Failed to fetch")
    Sys.init).2.2.1 rfl "Bad Gateway" rfl

/-! ## A successful alert -/

theorem handleAlertBody_success (pos : JsNum × JsNum) (r : Response AlertResult)
    (result : AlertResult) (a : Sample) (historyResp : Except String (Response AlertsBody))
    (s : Sys) (hct : isJsonType r.contentType = true) (hok : r.ok = true)
    (hj : r.json = .ok result) (ha : result.alert = some a) :
    ∃ s1, SameLoop s s1 ∧ Grows (fun e => isLoopStart e = false) s s1 ∧
      handleAlertBody (some (.ok pos)) (.ok r) historyResp s =
        (startLiveTracking true >>= fun _ => fetchHistory historyResp) s1 := by
  have hres : (sendAlert pos.1 pos.2 "" "" (.ok r) s).1 = .ok result := by
    rw [sendAlert_outcome, hct, hj, hok]
    simp
  unfold handleAlertBody
  simp only [bind_run, Flow.andThen, getLocation, emit, await, update, setStatus]
  rw [sendAlert_eq pos.1 pos.2 "" "" (.ok r) s, hres]
  cases hdm : result.demo_mode <;> rcases hdr : result.delivery_results with _ | rs <;>
    simp only [hdm, hdr, ha, bind_run, pure_run, Flow.andThen, emit, Bool.false_eq_true,
      if_true, if_false, Option.isSome] <;>
    refine ⟨_, ?_, ?_, rfl⟩ <;>
    first
      | exact ⟨rfl, rfl, rfl⟩
      | (refine ⟨_, by simp only [List.append_assoc]; rfl, ?_⟩
         intro e he
         simp at he
         rcases he with h | h | h | h | h | h | h | h | h <;> subst h <;> rfl)
      | (refine ⟨_, by simp only [List.append_assoc]; rfl, ?_⟩
         intro e he
         simp at he
         rcases he with h | h | h | h | h | h | h | h <;> subst h <;> rfl)

theorem consistent_of_sameLoop (s t : Sys) (h : SameLoop s t) (hs : Consistent s) :
    Consistent t := by
  unfold Consistent at hs ⊢
  rw [h.1, h.2.1, h.2.2]
  exact hs

theorem startLiveTracking_active (s : Sys) (hs : Consistent s) :
    ∃ s1 d, startLiveTracking true s = (.ok (), s1) ∧ Consistent s1 ∧
      (∃ h, s1.liveTrackingInterval = some h) ∧ s1.trace = s.trace ++ d ∧
      (s.liveTrackingInterval = none → ∃ h, Effect.setInterval h tickPeriod ∈ d) := by
  cases hl : s.liveTrackingInterval with
  | none =>
    refine ⟨_, _, startLiveTracking_stopped s hl, ?_, ⟨_, rfl⟩, rfl,
      fun _ => ⟨s.lastHandle + 1, ?_⟩⟩
    · simp [Consistent, hl] at hs
      simp [Consistent, hs.2]
    · simp
  | some n =>
    have hn : 0 < n := by simp [Consistent, hl] at hs; exact hs.1
    have ht : truthyHandle s.liveTrackingInterval = true := by
      simp [hl, truthyHandle]; omega
    exact ⟨s, [], startLiveTracking_held s ht, hs, ⟨n, hl⟩, by simp, by simp⟩

theorem fetchHistory_trace (resp : Except String (Response AlertsBody)) (s : Sys) :
    SameLoop s (fetchHistory resp s).2 ∧
    ∃ d, (fetchHistory resp s).2.trace = s.trace ++ .fetch "GET" "/get_alerts" .none :: d ∧
      ∀ e ∈ d, isLoopStart e = false := by
  rcases resp with e | r
  · exact ⟨⟨rfl, rfl, rfl⟩, [], rfl, by simp⟩
  · rcases hj : r.json with e | data
    · refine ⟨?_, [], ?_, by simp⟩ <;>
        simp [fetchHistory, bind_run, Flow.andThen, emit, await, hj, SameLoop]
    · refine ⟨?_, [.renderHistory (data.alerts.getD []),
        .updateAlertMarkers (data.alerts.getD [])], ?_, ?_⟩
      · simp [fetchHistory, bind_run, Flow.andThen, emit, await, hj, SameLoop]
      · simp [fetchHistory, bind_run, Flow.andThen, emit, await, hj]
      · intro e he
        simp at he
        rcases he with h | h <;> subst h <;> rfl

/-- C8: when the location is acquired and the alert endpoint answers OK with a
JSON body carrying an alert, then, whatever the other fields of the body, the
answer to the history refresh, and whether the loop was Stopped or Active
before, `handleAlert` ends with a timer handle held, that timer scheduled and
the tracking flag true; and the history request is made after every call by
which the loop is started (a new timer among them when the loop was Stopped). -/
theorem handleAlert_starts_tracking (pos : JsNum × JsNum) (r : Response AlertResult)
    (result : AlertResult) (a : Sample) (historyResp : Except String (Response AlertsBody))
    (s : Sys) (hct : isJsonType r.contentType = true) (hok : r.ok = true)
    (hj : r.json = .ok result) (ha : result.alert = some a) (hs : Consistent s) :
    (∃ h, (handleAlert (some (.ok pos)) (.ok r) historyResp s).2.liveTrackingInterval = some h ∧
      0 < h ∧ (handleAlert (some (.ok pos)) (.ok r) historyResp s).2.timers = [h]) ∧
    (handleAlert (some (.ok pos)) (.ok r) historyResp s).2.trackingActive = true ∧
    ∃ pre post, effectsOf (handleAlert (some (.ok pos)) (.ok r) historyResp) s =
        pre ++ .fetch "GET" "/get_alerts" .none :: post ∧
      (∀ e ∈ post, isLoopStart e = false) ∧
      (s.liveTrackingInterval = none → ∃ h, Effect.setInterval h tickPeriod ∈ pre) := by
  obtain ⟨s1, hl1, ⟨d1, ht1, -⟩, hbody⟩ :=
    handleAlertBody_success pos r result a historyResp (alertBegin s) hct hok hj ha
  have hc1 : Consistent s1 := consistent_of_sameLoop _ _ hl1 (by simpa [Consistent, alertBegin] using hs)
  obtain ⟨s2, d2, hstart, hc2, ⟨h, hh⟩, ht2, hnew⟩ := startLiveTracking_active s1 hc1
  obtain ⟨hl3, d3, ht3, hq3⟩ := fetchHistory_trace historyResp s2
  have hbody2 : handleAlertBody (some (.ok pos)) (.ok r) historyResp (alertBegin s) =
      fetchHistory historyResp s2 := by
    rw [hbody, bind_run]
    unfold Flow.andThen
    rw [hstart]
  obtain ⟨c, hc, hcq, hl4⟩ := alertRecover_trace (fetchHistory historyResp s2)
  have hfin : (handleAlert (some (.ok pos)) (.ok r) historyResp s).2 =
      alertFinish (alertRecover (fetchHistory historyResp s2)) := by
    rw [handleAlert_run, hbody2]
  have hloop : SameLoop s2 (alertFinish (alertRecover (fetchHistory historyResp s2))) :=
    sameLoop_trans _ _ _ (sameLoop_trans _ _ _ hl3 hl4) ⟨rfl, rfl, rfl⟩
  have hc5 := consistent_of_sameLoop _ _ hloop hc2
  have hh5 : (alertFinish (alertRecover (fetchHistory historyResp s2))).liveTrackingInterval =
      some h := by rw [hloop.1, hh]
  unfold Consistent at hc5
  rw [hh5] at hc5
  refine ⟨⟨h, by rw [hfin, hh5], hc5.1, by rw [hfin]; exact hc5.2.2⟩, by rw [hfin]; exact hc5.2.1,
    ?_⟩
  refine ⟨[.setStatus "Getting location...", .setDeliveryWarning "", .classAdd "alerting",
      .setIndicator "emergency", .playSiren] ++ d1 ++ d2,
    d3 ++ c ++ [.classRemove "alerting", .setTimeoutSetIndicator "safe" 4000], ?_, ?_, ?_⟩
  · unfold effectsOf
    rw [hfin]
    show List.drop _ ((alertRecover _).trace ++ _) = _
    rw [hc, ht3, ht2, ht1]
    simp [alertBegin]
  · intro e he
    rcases List.mem_append.mp he with h1 | h1
    · rcases List.mem_append.mp h1 with h2 | h2
      · exact hq3 e h2
      · exact (hcq e h2).2
    · simp at h1
      rcases h1 with h1 | h1 <;> subst h1 <;> rfl
  · intro hnone
    have : s1.liveTrackingInterval = none := by rw [hl1.1]; exact hnone
    obtain ⟨h2, hmem⟩ := hnew this
    exact ⟨h2, List.mem_append_right _ hmem⟩

/-- C8, from the initial state with a plain successful answer: the run ends
with timer 1 held and scheduled. -/
theorem handleAlert_starts_tracking_witness :
    (∃ h, (handleAlert examplePosition (.ok (okJson demoWithDeliveries))
        (.error "Failed to fetch") Sys.init).2.liveTrackingInterval = some h ∧ 0 < h ∧
      (handleAlert examplePosition (.ok (okJson demoWithDeliveries))
        (.error "Failed to fetch") Sys.init).2.timers = [h]) :=
  (handleAlert_starts_tracking (.num 10, .num 20) (okJson demoWithDeliveries) demoWithDeliveries
    ⟨.number 10, .number 20, "t1"⟩ (.error "Failed to fetch") Sys.init rfl rfl rfl rfl
    consistent_init).1

/-! ## The loop in time -/

theorem flights_append_le (fl : List Flight) (b e : Nat) (hq : ∀ f ∈ fl, f.settles < b)
    (h1 : ∀ t, (fl.filter (fun f => f.covers t)).length ≤ 1) (t : Nat) :
    ((fl ++ [(⟨b, e⟩ : Flight)]).filter (fun f => f.covers t)).length ≤ 1 := by
  rw [List.filter_append, List.length_append]
  by_cases hb : b ≤ t
  · have hnone : fl.filter (fun f => f.covers t) = [] := by
      rw [List.filter_eq_nil_iff]
      intro f hf
      have := hq f hf
      simp [Flight.covers]
      omega
    rw [hnone]
    simp only [List.length_nil, Nat.zero_add]
    exact (List.length_filter_le _ _).trans (by simp)
  · have hnone : [(⟨b, e⟩ : Flight)].filter (fun f => f.covers t) = [] := by
      rw [List.filter_eq_nil_iff]
      intro f hf
      simp at hf
      subst hf
      simp [Flight.covers]
      omega
    rw [hnone]
    simpa using h1 t

theorem settled_of_none_in_flight (w : World) (t : Nat) (hnow : w.now ≤ t)
    (hb : ∀ f ∈ w.flights, f.began ≤ w.now) (h0 : inFlightAt w t = 0) :
    ∀ f ∈ w.flights, f.settles < t := by
  intro f hf
  unfold inFlightAt at h0
  have hnil := List.length_eq_zero.mp h0
  rw [List.filter_eq_nil_iff] at hnil
  have hc := hnil f hf
  have hbf := hb f hf
  simp [Flight.covers] at hc
  omega

theorem beginTick_steady (parseFloat : JsVal → JsNum) (env : Nat → TickEnv)
    (hshort : ∀ k, (env k).timing.total < tickPeriod) (t : Nat) (w : World)
    (hc : Consistent w.sys) (hnow : w.now = t) (hb : ∀ f ∈ w.flights, f.began ≤ w.now)
    (h1 : ∀ u, inFlightAt w u ≤ 1) (hq : ∀ f ∈ w.flights, f.settles < t) :
    Consistent (beginTick parseFloat env t w).sys ∧
    SameLoop w.sys (beginTick parseFloat env t w).sys ∧
    (beginTick parseFloat env t w).now = t ∧
    (beginTick parseFloat env t w).due = w.due ∧
    (∀ f ∈ (beginTick parseFloat env t w).flights, f.began ≤ t) ∧
    (∀ u, inFlightAt (beginTick parseFloat env t w) u ≤ 1) ∧
    (∀ f ∈ (beginTick parseFloat env t w).flights, f.settles < t + tickPeriod) := by
  have hl := (tick_run parseFloat (env w.flights.length).geo (env w.flights.length).push
    (env w.flights.length).pull w.sys).2.2.1
  have hk := hshort w.flights.length
  refine ⟨consistent_of_sameLoop _ _ hl hc, hl, hnow, rfl, ?_, ?_, ?_⟩
  · intro f hf
    simp only [beginTick, List.mem_append, List.mem_singleton] at hf
    rcases hf with hf | hf
    · have := hb f hf; omega
    · subst hf; exact le_refl _
  · intro u
    exact flights_append_le w.flights t _ hq h1 u
  · intro f hf
    simp only [beginTick, List.mem_append, List.mem_singleton] at hf
    rcases hf with hf | hf
    · have := hq f hf; omega
    · subst hf; simp only; omega

theorem click_steady (parseFloat : JsVal → JsNum) (env : Nat → TickEnv)
    (hshort : ∀ k, (env k).timing.total < tickPeriod) (w : World) (t : Nat) (op : Op)
    (hw : Steady w) (hcalm : restartsInFlight w (.click t op) = false) (ht : w.now ≤ t) :
    Steady (absorb parseFloat env t ((step w.sys op).trace.drop w.sys.trace.length)
      { w with sys := step w.sys op, now := t }) := by
  obtain ⟨hc, hb, h1, hnone, hsome⟩ := hw
  have hb2 : ∀ f ∈ w.flights, f.began ≤ t := fun f hf => (hb f hf).trans ht
  cases op with
  | start g =>
    cases g with
    | false =>
      simp only [step, startLiveTracking_unsupported, List.drop_left, absorb]
      exact ⟨by simpa [Consistent] using hc, hb2, h1, hnone, hsome⟩
    | true =>
      cases hl : w.sys.liveTrackingInterval with
      | none =>
        have hq : ∀ f ∈ w.flights, f.settles < t := by
          apply settled_of_none_in_flight w t ht hb
          simp only [restartsInFlight, effectsOf, startLiveTracking_stopped w.sys hl,
            List.drop_left] at hcalm
          simpa using hcalm
        simp only [step, startLiveTracking_stopped w.sys hl, List.drop_left, absorb]
        have hdue := hnone hl
        obtain ⟨k1, k2, k3, k4, k5, k6, k7⟩ := beginTick_steady parseFloat env hshort t
          { w with
            sys := { w.sys with
              trackingActive := true
              liveTrackingInterval := some (w.sys.lastHandle + 1)
              lastHandle := w.sys.lastHandle + 1
              timers := w.sys.timers ++ [w.sys.lastHandle + 1]
              trace := w.sys.trace ++ [.setTrackingStatusView true, .tick,
                .setInterval (w.sys.lastHandle + 1) tickPeriod] }
            now := t }
          (by
            simp [Consistent, hl] at hc
            simp [Consistent, hc.2])
          rfl hb2 h1 hq
        refine ⟨k1, ?_, k6, ?_, ?_⟩
        · intro f hf
          exact k5 f hf
        · intro hn
          rw [k2.1] at hn
          cases hn
        · intro h hh
          rw [k2.1] at hh
          cases hh
          refine ⟨t + tickPeriod, ?_, k7⟩
          show (beginTick parseFloat env t _).due ++ _ = _
          rw [k4]
          simp [hdue]
      | some n =>
        have hn : 0 < n := by simp [Consistent, hl] at hc; exact hc.1
        have htr : truthyHandle w.sys.liveTrackingInterval = true := by
          simp [hl, truthyHandle]; omega
        simp only [step, startLiveTracking_held w.sys htr, List.drop_length, absorb]
        exact ⟨hc, hb2, h1, hnone, hsome⟩
  | stop =>
    cases hl : w.sys.liveTrackingInterval with
    | none =>
      have htr : truthyHandle w.sys.liveTrackingInterval = false := by simp [hl, truthyHandle]
      simp only [step, stopLiveTracking_stopped w.sys htr, List.drop_length, absorb]
      exact ⟨hc, hb2, h1, hnone, hsome⟩
    | some n =>
      have hc2 := hc
      simp [Consistent, hl] at hc2
      obtain ⟨next, hdue, -⟩ := hsome n hl
      simp only [step, stopLiveTracking_held w.sys n hl hc2.1, List.drop_left, absorb]
      refine ⟨by simp [Consistent, hc2.2.2], hb2, h1, ?_, ?_⟩
      · intro _
        simp [hdue]
      · intro h hh
        cases hh

theorem react_steady (parseFloat : JsVal → JsNum) (env : Nat → TickEnv)
    (hshort : ∀ k, (env k).timing.total < tickPeriod) (w w1 : World) (e : Event)
    (hw : Steady w) (hcalm : restartsInFlight w e = false)
    (hr : react parseFloat env w e = some w1) : Steady w1 := by
  cases e with
  | click t op =>
    simp only [react] at hr
    split at hr
    · rename_i ht
      cases hr
      exact click_steady parseFloat env hshort w t op hw hcalm ht
    · cases hr
  | fire t h =>
    obtain ⟨hc, hb, h1, hnone, hsome⟩ := hw
    cases hl : w.sys.liveTrackingInterval with
    | none =>
      simp [react, hnone hl] at hr
    | some n =>
      obtain ⟨next, hdue, hq⟩ := hsome n hl
      simp only [react, hdue, List.find?_cons, List.find?_nil] at hr
      by_cases hnh : (n == h) = true
      · simp only [hnh] at hr
        split at hr
        · rename_i ht
          cases hr
          have hq2 : ∀ f ∈ w.flights, f.settles < t := fun f hf => by
            have := hq f hf
            omega
          have hb2 : ∀ f ∈ w.flights, f.began ≤ t := fun f hf => (hb f hf).trans ht.1
          obtain ⟨k1, k2, k3, k4, k5, k6, k7⟩ := beginTick_steady parseFloat env hshort t
            { w with
              now := t
              due := List.map (fun x => if (x.handle == h) = true then
                { x with next := t + x.period } else x)
                [{ handle := n, period := tickPeriod, next := next }] }
            hc rfl hb2 h1 hq2
          refine ⟨k1, ?_, k6, ?_, ?_⟩
          · intro f hf
            exact k5 f hf
          · intro hn
            rw [k2.1] at hn
            rw [hl] at hn
            cases hn
          · intro h2 hh
            rw [k2.1] at hh
            rw [hl] at hh
            cases hh
            refine ⟨t + tickPeriod, ?_, k7⟩
            have hnh2 : n = h := by simpa using hnh
            rw [k4]
            simp [hnh2]
        · cases hr
      · simp only [hnh] at hr
        cases hr

theorem runEvents_steady (parseFloat : JsVal → JsNum) (env : Nat → TickEnv)
    (hshort : ∀ k, (env k).timing.total < tickPeriod) (events : List Event) (w w1 : World)
    (hw : Steady w) (hcalm : calm parseFloat env events w = true)
    (hr : runEvents parseFloat env events w = some w1) : Steady w1 := by
  induction events generalizing w with
  | nil =>
    simp only [runEvents] at hr
    cases hr
    exact hw
  | cons e es ih =>
    simp only [runEvents] at hr
    simp only [calm, Bool.and_eq_true, Bool.not_eq_true'] at hcalm
    cases hre : react parseFloat env w e with
    | none => rw [hre] at hr; cases hr
    | some w2 =>
      rw [hre] at hr hcalm
      exact ih w2 (react_steady parseFloat env hshort w w2 e hw hcalm.1 hre) hcalm.2 hr

theorem steady_init : Steady World.init := by
  refine ⟨consistent_init, ?_, ?_, ?_, ?_⟩
  · intro f hf; cases hf
  · intro t; simp [inFlightAt, World.init]
  · intro _; rfl
  · intro h hh; cases hh

/-- C2, as the code has it: take any sequence of clicks on the tracking buttons
and timer firings from the loaded page, where a timer fires no earlier than it
is due. When every tick settles in less than the 5000 ms period and
`startLiveTracking` never calls `tick()` while a tick is in flight, at most one
tick is in flight at any time. -/
theorem ticks_disjoint_when_short_and_calm (parseFloat : JsVal → JsNum) (env : Nat → TickEnv)
    (hshort : ∀ k, (env k).timing.total < tickPeriod) (events : List Event)
    (hcalm : calm parseFloat env events World.init = true) (w : World)
    (hr : runEvents parseFloat env events World.init = some w) (t : Nat) :
    inFlightAt w t ≤ 1 :=
  (runEvents_steady parseFloat env hshort events World.init w steady_init hcalm hr).2.2.1 t

/-- C2, on Start, two firings (one late), Stop and a later Start, with ticks of
4000 ms: the platform can produce the sequence, and one tick at most is in
flight at 22000 ms. -/
theorem ticks_disjoint_when_short_and_calm_witness :
    runEvents parseFloatPlain quickTicks steadyRun World.init = some steadyWorld ∧
    inFlightAt steadyWorld 22000 ≤ 1 :=
  ⟨by decide,
    ticks_disjoint_when_short_and_calm parseFloatPlain quickTicks
      (fun _ => by simp [quickTicks, answersOk, TickTiming.total, tickPeriod]) steadyRun
      (by decide) steadyWorld (by decide) 22000⟩

/-- C2 fails as stated: with a location request of 6000 ms, inside the
10000 ms timeout, the immediate tick is still in flight when the timer fires on
time at 5000 ms and begins the next one. A loop that is stopped and started
again overlaps as well, with ticks of 4000 ms: the tick begun by the first
Start is still in flight when the second Start begins another. -/
theorem ticks_overlap_when_slow :
    (slowLocation 0).timing.location ≤ locationTimeout ∧
    (slowLocation 1).timing.location ≤ locationTimeout ∧
    calm parseFloatPlain slowLocation startAndFire World.init = true ∧
    (runEvents parseFloatPlain slowLocation startAndFire World.init).map
      (fun w => (w.flights, inFlightAt w 5000)) =
      some ([{ began := 0, settles := 6000 }, { began := 5000, settles := 11000 }], 2) ∧
    (quickTicks 0).timing.total < tickPeriod ∧ (quickTicks 1).timing.total < tickPeriod ∧
    (runEvents parseFloatPlain quickTicks startStopStart World.init).map
      (fun w => (w.flights, inFlightAt w 2000)) =
      some ([{ began := 0, settles := 4000 }, { began := 2000, settles := 6000 }], 2) := by
  refine ⟨by decide, by decide, by decide, by decide, by decide, by decide, by decide⟩

end Sea
